import Mathlib

/-!
# Verification of the image/text gateway backends

Shallow embedding of `src/backend/index.js` (Hugging Face variant) and
`src/backend/index.mjs` (OpenRouter + Pollinations variant).

* JavaScript strings are sequences of UTF-16 code units, so that strings with
  an unpaired surrogate (which `JSON.parse` produces from an escape such as
  `\ud800`) are values of the model.
* JavaScript values are the JSON values plus `undefined`.  Numbers are modelled
  by integers and printed in plain decimal, which is what JavaScript does for the
  integers of magnitude below `10^21` that a double holds exactly; fractional and
  larger numbers are outside the model.
* An exception is modelled by its `message`, which is all the handlers read.
  The message texts of engine-raised errors follow V8 (Node.js).
* Upstream providers are an arbitrary function of the calls made so far and the
  current call; every handler returns its HTTP response together with the log
  of upstream calls it issued.
* `console.error` and `console.log` only write to the process log and are left out.
-/

namespace Backend

/-! ## Strings -/

/-- A UTF-16 code unit. -/
abbrev CodeUnit := Fin 65536

/-- A JavaScript string: a finite sequence of UTF-16 code units. -/
abbrev JSString := List CodeUnit

/-- The JavaScript string written by a source literal whose characters all lie in the
Basic Multilingual Plane (every literal of the two source files used here is ASCII). -/
def lit (s : String) : JSString := s.toList.map (fun c => Fin.ofNat c.toNat)

/-- A byte of a Node.js `Buffer`. -/
abbrev Byte := Fin 256

/-- ECMAScript `WhiteSpace` and `LineTerminator` code points, the set removed by
`String.prototype.trim`. -/
def isWhiteSpace (u : CodeUnit) : Bool :=
  u.val = 0x09 || u.val = 0x0A || u.val = 0x0B || u.val = 0x0C || u.val = 0x0D ||
  u.val = 0x20 || u.val = 0xA0 || u.val = 0x1680 ||
  (0x2000 ≤ u.val && u.val ≤ 0x200A) ||
  u.val = 0x2028 || u.val = 0x2029 || u.val = 0x202F || u.val = 0x205F ||
  u.val = 0x3000 || u.val = 0xFEFF

/-- The method `String.prototype.trim`. -/
def trim (s : JSString) : JSString :=
  ((s.dropWhile isWhiteSpace).reverse.dropWhile isWhiteSpace).reverse

/-- Leading surrogate `0xD800..0xDBFF`. -/
def isHighSurrogate (u : CodeUnit) : Bool := 0xD800 ≤ u.val && u.val ≤ 0xDBFF

/-- Trailing surrogate `0xDC00..0xDFFF`. -/
def isLowSurrogate (u : CodeUnit) : Bool := 0xDC00 ≤ u.val && u.val ≤ 0xDFFF

/-- The method `String.prototype.isWellFormed`: no unpaired surrogate. -/
def isWellFormed : JSString → Bool
  | [] => true
  | [u] => !isHighSurrogate u && !isLowSurrogate u
  | u :: l :: rest =>
    if isHighSurrogate u then isLowSurrogate l && isWellFormed rest
    else !isLowSurrogate u && isWellFormed (l :: rest)

/-- One hexadecimal digit, upper case (`upper = true`) or lower case. -/
def hexDigit (upper : Bool) (n : Nat) : CodeUnit :=
  if n % 16 < 10 then Fin.ofNat (0x30 + n % 16)
  else if upper then Fin.ofNat (0x41 + (n % 16 - 10))
  else Fin.ofNat (0x61 + (n % 16 - 10))

/-- Decimal digits of a natural number. -/
def natToJSString (n : Nat) : JSString := lit (Nat.repr n)

/-- The text of `Number.prototype.toString` for an integer-valued number of magnitude
below `10^21` (from there on JavaScript prints an exponent, which is not modelled). -/
def intToJSString : Int → JSString
  | Int.ofNat n => natToJSString n
  | Int.negSucc n => lit "-" ++ natToJSString (n + 1)

/-! ## Values -/

/-- JavaScript values that the handlers meet: the JSON values and `undefined`.
The fields of an object are listed in property order, with distinct keys; `num n` is the
integer-valued number `n`, meant for magnitudes below `10^21`. -/
inductive JVal where
  | undefined
  | null
  | bool (b : Bool)
  | num (n : Int)
  | str (s : JSString)
  | arr (xs : List JVal)
  | obj (fields : List (JSString × JVal))

/-- An exception, represented by its `message`. -/
abbrev Throws (α : Type) := Except JSString α

/-- ECMAScript `ToBoolean`. -/
def truthy : JVal → Bool
  | .undefined => false
  | .null => false
  | .bool b => b
  | .num n => n != 0
  | .str s => !s.isEmpty
  | .arr _ => true
  | .obj _ => true

/-- The value is `null` or `undefined`. -/
def isNullish : JVal → Bool
  | .undefined => true
  | .null => true
  | _ => false

/-- The function `Array.isArray`. -/
def isArray : JVal → Bool
  | .arr _ => true
  | _ => false

/-- Own data property of an object literal or parsed JSON object. -/
def lookupField (name : JSString) : List (JSString × JVal) → Option JVal
  | [] => none
  | (k, v) :: rest => if k = name then some v else lookupField name rest

/-- Text `undefined` or `null` used in the messages of a failed property read. -/
def nullishName : JVal → JSString
  | .null => lit "null"
  | _ => lit "undefined"

/-- Property read `v.name`, for a name that no built-in prototype defines
(`generated_text`, `choices`, `message`, `content`, `prompt`, `text`):
a `TypeError` on `undefined` and `null`, the own property of an object, and
`undefined` on every other value. -/
def getField (v : JVal) (name : JSString) : Throws JVal :=
  match v with
  | .undefined | .null =>
    .error (lit "Cannot read properties of " ++ nullishName v ++ lit " (reading \x27" ++
      name ++ lit "\x27)")
  | .obj fields => .ok ((lookupField name fields).getD .undefined)
  | _ => .ok .undefined

/-- Indexed read `v[i]`. -/
def getIndex (v : JVal) (i : Nat) : Throws JVal :=
  match v with
  | .undefined | .null =>
    .error (lit "Cannot read properties of " ++ nullishName v ++ lit " (reading \x27" ++
      natToJSString i ++ lit "\x27)")
  | .arr xs => .ok (xs.getD i .undefined)
  | .str s => .ok (match s.get? i with | some u => .str [u] | none => .undefined)
  | .obj fields => .ok ((lookupField (natToJSString i) fields).getD .undefined)
  | _ => .ok .undefined

/-- Destructuring declaration `const` of the single property `name` from `v`, where the
source text of `v` is `src`. -/
def destructure (v : JVal) (src name : JSString) : Throws JVal :=
  match v with
  | .undefined | .null =>
    .error (lit "Cannot destructure property \x27" ++ name ++ lit "\x27 of \x27" ++ src ++
      lit "\x27 as it is " ++ nullishName v ++ lit ".")
  | _ => getField v name

/-- Optional chaining `v?.name`. -/
def optField (v : JVal) (name : JSString) : JVal :=
  match v with
  | .obj fields => (lookupField name fields).getD .undefined
  | _ => .undefined

/-- Optional chaining `v?.[i]`. -/
def optIndex (v : JVal) (i : Nat) : JVal :=
  match getIndex v i with
  | .ok x => x
  | .error _ => .undefined

mutual
/-- ECMAScript `ToString`, as applied by template literals and by
`encodeURIComponent` to its argument.  An object whose own `toString` property
shadows the inherited method has no primitive value (a parsed JSON value is never
callable). -/
def toJSString : JVal → Throws JSString
  | .undefined => .ok (lit "undefined")
  | .null => .ok (lit "null")
  | .bool true => .ok (lit "true")
  | .bool false => .ok (lit "false")
  | .num n => .ok (intToJSString n)
  | .str s => .ok s
  | .arr xs => joinElements xs
  | .obj fields =>
    match lookupField (lit "toString") fields with
    | some _ => .error (lit "Cannot convert object to primitive value")
    | none => .ok (lit "[object Object]")
/-- The method `Array.prototype.join` with the default separator. -/
def joinElements : List JVal → Throws JSString
  | [] => .ok []
  | [x] => elementText x
  | x :: y :: rest =>
    match elementText x with
    | .error e => .error e
    | .ok s =>
      match joinElements (y :: rest) with
      | .error e => .error e
      | .ok t => .ok (s ++ lit "," ++ t)
/-- Text of one array element inside `join`: empty for `undefined` and `null`. -/
def elementText : JVal → Throws JSString
  | .undefined => .ok []
  | .null => .ok []
  | .bool true => .ok (lit "true")
  | .bool false => .ok (lit "false")
  | .num n => .ok (intToJSString n)
  | .str s => .ok s
  | .arr xs => joinElements xs
  | .obj fields =>
    match lookupField (lit "toString") fields with
    | some _ => .error (lit "Cannot convert object to primitive value")
    | none => .ok (lit "[object Object]")
end

/-! ## `JSON.stringify` -/

/-- Escape `\uXXXX` with lower-case hexadecimal digits. -/
def unicodeEscape (u : CodeUnit) : JSString :=
  lit "\x5cu" ++ [hexDigit false (u.val / 4096), hexDigit false (u.val / 256),
    hexDigit false (u.val / 16), hexDigit false u.val]

/-- The escape of one code unit that is not part of a surrogate pair. -/
def quoteUnit (u : CodeUnit) : JSString :=
  if u.val = 0x08 then lit "\x5cb"
  else if u.val = 0x09 then lit "\x5ct"
  else if u.val = 0x0A then lit "\x5cn"
  else if u.val = 0x0C then lit "\x5cf"
  else if u.val = 0x0D then lit "\x5cr"
  else if u.val = 0x22 then lit "\x5c\x22"
  else if u.val = 0x5C then lit "\x5c\x5c"
  else if u.val < 0x20 || isHighSurrogate u || isLowSurrogate u then unicodeEscape u
  else [u]

/-- Body of `QuoteJSONString`: paired surrogates are copied, everything else goes
through `quoteUnit`. -/
def quoteBody : JSString → JSString
  | [] => []
  | [u] => quoteUnit u
  | u :: l :: rest =>
    if isHighSurrogate u && isLowSurrogate l then u :: l :: quoteBody rest
    else quoteUnit u ++ quoteBody (l :: rest)

/-- ECMAScript `QuoteJSONString`. -/
def quoteJSON (s : JSString) : JSString := lit "\x22" ++ quoteBody s ++ lit "\x22"

mutual
/-- The function `JSON.stringify` with one argument; `none` is the result `undefined`. -/
def stringify : JVal → Option JSString
  | .undefined => none
  | .null => some (lit "null")
  | .bool true => some (lit "true")
  | .bool false => some (lit "false")
  | .num n => some (intToJSString n)
  | .str s => some (quoteJSON s)
  | .arr xs => some (lit "[" ++ stringifyElements xs ++ lit "]")
  | .obj fields => some (lit "\x7b" ++ stringifyMembers true fields ++ lit "\x7d")
/-- Elements of an array, `undefined` serialised as `null`. -/
def stringifyElements : List JVal → JSString
  | [] => []
  | [x] => (stringify x).getD (lit "null")
  | x :: y :: rest => (stringify x).getD (lit "null") ++ lit "," ++ stringifyElements (y :: rest)
/-- Members of an object; a member whose value is `undefined` is skipped.
`first` tells that no member has been written yet. -/
def stringifyMembers (first : Bool) : List (JSString × JVal) → JSString
  | [] => []
  | (k, v) :: rest =>
    match stringify v with
    | none => stringifyMembers first rest
    | some t =>
      (if first then [] else lit ",") ++ quoteJSON k ++ lit ":" ++ t ++
        stringifyMembers false rest
end

/-! ## `encodeURIComponent` and base64 -/

/-- The characters `encodeURIComponent` leaves as they are: ASCII letters, digits and
the marks `- _ . ! ~ * ( )` and the apostrophe. -/
def isUnescaped (u : CodeUnit) : Bool :=
  (0x41 ≤ u.val && u.val ≤ 0x5A) || (0x61 ≤ u.val && u.val ≤ 0x7A) ||
  (0x30 ≤ u.val && u.val ≤ 0x39) ||
  u.val = 0x2D || u.val = 0x5F || u.val = 0x2E || u.val = 0x21 || u.val = 0x7E ||
  u.val = 0x2A || u.val = 0x27 || u.val = 0x28 || u.val = 0x29

/-- UTF-8 encoding of a code point below `0x110000`. -/
def utf8Encode (cp : Nat) : List Nat :=
  if cp < 0x80 then [cp]
  else if cp < 0x800 then [0xC0 + cp / 64, 0x80 + cp % 64]
  else if cp < 0x10000 then [0xE0 + cp / 4096, 0x80 + cp / 64 % 64, 0x80 + cp % 64]
  else [0xF0 + cp / 262144, 0x80 + cp / 4096 % 64, 0x80 + cp / 64 % 64, 0x80 + cp % 64]

/-- The escape `%XX` of one octet, with upper-case hexadecimal digits. -/
def percentOctet (b : Nat) : JSString :=
  [Fin.ofNat 0x25, hexDigit true (b / 16), hexDigit true b]

/-- Percent-encoding of the UTF-8 octets of a code point. -/
def percentEncode (cp : Nat) : JSString :=
  (utf8Encode cp).flatMap percentOctet

/-- Code point of a surrogate pair. -/
def pairCodePoint (hi lo : CodeUnit) : Nat :=
  0x10000 + (hi.val - 0xD800) * 0x400 + (lo.val - 0xDC00)

/-- The abstract operation `Encode` of `encodeURIComponent` on a string: a `URIError`
at an unpaired surrogate. -/
def encodeUnits : JSString → Throws JSString
  | [] => .ok []
  | [u] =>
    if isUnescaped u then .ok [u]
    else if isHighSurrogate u || isLowSurrogate u then .error (lit "URI malformed")
    else .ok (percentEncode u.val)
  | u :: l :: rest =>
    if isUnescaped u then
      match encodeUnits (l :: rest) with
      | .ok t => .ok (u :: t)
      | .error e => .error e
    else if isHighSurrogate u then
      if isLowSurrogate l then
        match encodeUnits rest with
        | .ok t => .ok (percentEncode (pairCodePoint u l) ++ t)
        | .error e => .error e
      else .error (lit "URI malformed")
    else if isLowSurrogate u then .error (lit "URI malformed")
    else
      match encodeUnits (l :: rest) with
      | .ok t => .ok (percentEncode u.val ++ t)
      | .error e => .error e

/-- The global function `encodeURIComponent`: `ToString` of the argument, then `Encode`. -/
def encodeURIComponent (v : JVal) : Throws JSString :=
  match toJSString v with
  | .ok s => encodeUnits s
  | .error e => .error e

/-- One character of the base64 alphabet `A-Z a-z 0-9 + /`. -/
def base64Char (n : Nat) : CodeUnit :=
  if n % 64 < 26 then Fin.ofNat (0x41 + n % 64)
  else if n % 64 < 52 then Fin.ofNat (0x61 + (n % 64 - 26))
  else if n % 64 < 62 then Fin.ofNat (0x30 + (n % 64 - 52))
  else if n % 64 = 62 then Fin.ofNat 0x2B
  else Fin.ofNat 0x2F

/-- The call `buffer.toString("base64")`: standard alphabet, padded with `=`. -/
def toBase64 : List Byte → JSString
  | [] => []
  | [a] =>
    [base64Char (a.val / 4), base64Char (a.val % 4 * 16), Fin.ofNat 0x3D, Fin.ofNat 0x3D]
  | [a, b] =>
    [base64Char (a.val / 4), base64Char (a.val % 4 * 16 + b.val / 16),
      base64Char (b.val % 16 * 4), Fin.ofNat 0x3D]
  | a :: b :: c :: rest =>
    base64Char (a.val / 4) :: base64Char (a.val % 4 * 16 + b.val / 16) ::
      base64Char (b.val % 16 * 4 + c.val / 64) :: base64Char (c.val % 64) :: toBase64 rest

/-! ## Upstream calls and the handler monad -/

/-- One outbound request, as recorded in the log of a handler run. -/
inductive Call where
  /-- The call `axios.post(url, data, options)`; `arraybuffer` tells whether the options
  hold `responseType: "arraybuffer"`, `timeout` is in milliseconds. -/
  | axiosPost (url : JSString) (data : JVal) (arraybuffer : Bool) (timeout : Nat)
  /-- The call `completion(params)` of `litellm`. -/
  | completion (params : JVal)

/-- The providers: what an outbound request yields, given the requests issued before it
in the same handler run.  `json` answers requests whose payload is a parsed body (the
`data` of an axios response, or the value `completion` resolves to), `binary` answers
requests made with `responseType: "arraybuffer"`.  An error is a rejected promise, with
the message of the rejection. -/
structure World where
  json : List Call → Call → Throws JVal
  binary : List Call → Call → Throws (List Byte)

/-- A computation inside a handler: it can issue upstream calls (appended to the log)
and can throw. -/
def Eff (α : Type) : Type := World → List Call → Throws α × List Call

/-- Result without effect. -/
def Eff.pure {α : Type} (a : α) : Eff α := fun _ log => (.ok a, log)

/-- Sequencing; an exception skips the rest and keeps the log. -/
def Eff.bind {α β : Type} (m : Eff α) (f : α → Eff β) : Eff β := fun w log =>
  match m w log with
  | (.ok a, log1) => f a w log1
  | (.error e, log1) => (.error e, log1)

instance : Monad Eff where
  pure := Eff.pure
  bind := Eff.bind

/-- A pure step that may throw. -/
def liftThrows {α : Type} (t : Throws α) : Eff α := fun _ log => (t, log)

/-- The `data` of the response awaited from `axios.post(url, data, options)` where the
options hold only `timeout`. -/
def axiosPost (url : JSString) (data : JVal) (timeout : Nat) : Eff JVal := fun w log =>
  (w.json log (.axiosPost url data false timeout),
    log ++ [.axiosPost url data false timeout])

/-- The `data` of the response awaited from `axios.post(url, data, options)` where the
options hold `responseType: "arraybuffer"` and `timeout`. -/
def axiosPostBinary (url : JSString) (data : JVal) (timeout : Nat) : Eff (List Byte) :=
  fun w log =>
  (w.binary log (.axiosPost url data true timeout),
    log ++ [.axiosPost url data true timeout])

/-- The expression `await completion(params)`. -/
def completion (params : JVal) : Eff JVal := fun w log =>
  (w.json log (.completion params), log ++ [.completion params])

/-- An HTTP response produced through `res.status(status).json(body)`; `res.json(body)`
alone leaves the status at 200. -/
structure Response where
  status : Nat
  body : JVal

/-- The part of an Express request the handlers read: the parsed JSON body and the file
stored by `upload.single("image")`, if one was attached. -/
structure Request where
  body : JVal
  file : Option (List Byte)

/-- A handler whose body is one `try` block with one `catch (err)` block that reads only
`err.message`, run on a fresh log: the response sent and the upstream calls issued. -/
def runHandler (tryBlock : Eff Response) (catchBlock : JSString → Response) (w : World) :
    Response × List Call :=
  match tryBlock w [] with
  | (.ok r, log) => (r, log)
  | (.error message, log) => (catchBlock message, log)

/-! ## Code shared by both files -/

/-- The name `generated_text`. -/
def generatedText : JSString := lit "generated_text"

/-- The value of `JSON.stringify(data)` as a JavaScript value. -/
def jsonStringify (data : JVal) : JVal :=
  match stringify data with
  | some s => .str s
  | none => .undefined

/-- The condition `Array.isArray(data) && data[0].generated_text`. -/
def firstGeneratedText (data : JVal) : Throws JVal :=
  if isArray data then
    match getIndex data 0 with
    | .ok first => getField first generatedText
    | .error e => .error e
  else .ok (.bool false)

/-- The `if / else if / else` chain of `index.js` lines 25-31 and 75-81 and of
`index.mjs` lines 102-107 (the three copies differ only in the names of the variables):
the value assigned to `enhanced`, respectively `caption`. -/
def extractText (data : JVal) : Throws JVal :=
  match firstGeneratedText data with
  | .error e => .error e
  | .ok c1 =>
    if truthy c1 then
      match getIndex data 0 with
      | .ok first => getField first generatedText
      | .error e => .error e
    else
      match getField data generatedText with
      | .error e => .error e
      | .ok c2 =>
        if truthy c2 then getField data generatedText
        else .ok (jsonStringify data)

/-- The `if / else` of `index.js` lines 109-112 and `index.mjs` lines 130-133: the
value assigned to `caption` in generate-variations. -/
def variationCaption (data : JVal) : Throws JVal :=
  match firstGeneratedText data with
  | .error e => .error e
  | .ok c1 =>
    if truthy c1 then
      match getIndex data 0 with
      | .ok first => getField first generatedText
      | .error e => .error e
    else .ok (.str (lit "an image"))

/-- The method call `v.trim()` where the source text of `v` is `src`. -/
def callTrim (src : JSString) (v : JVal) : Throws JSString :=
  match v with
  | .str s => .ok (trim s)
  | .undefined | .null =>
    .error (lit "Cannot read properties of " ++ nullishName v ++ lit " (reading \x27trim\x27)")
  | _ => .error (src ++ lit ".trim is not a function")

/-- Address of the BLIP captioning model. -/
def blipUrl : JSString :=
  lit "https://api-inference.huggingface.co/models/Salesforce/blip-image-captioning-base"

/-- The payload of a captioning call for the uploaded bytes. -/
def captionPayload (buffer : List Byte) : JVal :=
  .obj [(lit "inputs", .str (lit "data:image/png;base64," ++ toBase64 buffer))]

/-- The captioning call issued by analyze-image and generate-variations. -/
def captionCall (buffer : List Byte) : Call :=
  .axiosPost blipUrl (captionPayload buffer) false 180000

/-- Body `error: code` of a validation failure. -/
def errorBody (code : String) : JVal := .obj [(lit "error", .str (lit code))]

/-- Body with `error: code` and `details: message`. -/
def errorDetails (code : String) (message : JSString) : JVal :=
  .obj [(lit "error", .str (lit code)), (lit "details", .str message)]

/-! ## `index.js` -/

namespace IndexJs

/-- Address of the text model. -/
def flanUrl : JSString :=
  lit "https://api-inference.huggingface.co/models/google/flan-t5-base"

/-- Address of the image model. -/
def stableDiffusionUrl : JSString :=
  lit "https://api-inference.huggingface.co/models/stabilityai/stable-diffusion-2"

/-- The `try` block of `POST /api/enhance-text` (lines 18-33). -/
def enhanceTextTry (req : Request) : Eff Response := do
  let prompt ← liftThrows (destructure req.body (lit "req.body") (lit "prompt"))
  let promptText ← liftThrows (toJSString prompt)
  let data ← axiosPost flanUrl
    (.obj [(lit "inputs",
      .str (lit "Enhance this text prompt for image generation:\n" ++ promptText))])
    120000
  let enhanced ← liftThrows (extractText data)
  let trimmed ← liftThrows (callTrim (lit "enhanced") enhanced)
  pure ⟨200, .obj [(lit "enhanced", .str trimmed)]⟩

/-- The `catch` block of `POST /api/enhance-text` (lines 35-36). -/
def enhanceTextCatch (message : JSString) : Response :=
  ⟨500, errorDetails "enhance_failed" message⟩

/-- The `try` block of `POST /api/generate-image` (lines 46-53). -/
def generateImageTry (req : Request) : Eff Response := do
  let prompt ← liftThrows (destructure req.body (lit "req.body") (lit "prompt"))
  let data ← axiosPostBinary stableDiffusionUrl (.obj [(lit "inputs", prompt)]) 300000
  let base64 := toBase64 data
  pure ⟨200, .obj [(lit "image", .str (lit "data:image/png;base64," ++ base64))]⟩

/-- The `catch` block of `POST /api/generate-image` (lines 55-56). -/
def generateImageCatch (message : JSString) : Response :=
  ⟨500, errorDetails "image_generation_failed" message⟩

/-- The statement of line 84: the fallback for a blank caption. -/
def blankFallback (caption : JVal) : Throws JVal :=
  if !truthy caption then .ok (.str (lit "Could not analyze image."))
  else
    match callTrim (lit "caption") caption with
    | .error e => .error e
    | .ok t => if t = [] then .ok (.str (lit "Could not analyze image.")) else .ok caption

/-- The `try` block of `POST /api/analyze-image` (lines 66-86). -/
def analyzeImageTry (req : Request) : Eff Response :=
  match req.file with
  | none => pure ⟨400, errorBody "no_file"⟩
  | some buffer => do
    let data ← axiosPost blipUrl (captionPayload buffer) 180000
    let caption ← liftThrows (extractText data)
    let caption ← liftThrows (blankFallback caption)
    pure ⟨200, .obj [(lit "caption", caption)]⟩

/-- The `catch` block of `POST /api/analyze-image` (lines 88-89). -/
def analyzeImageCatch (message : JSString) : Response :=
  ⟨500, errorDetails "image_analysis_failed" message⟩

/-- The array `styles` of lines 115-119. -/
def styles : List JSString :=
  [lit "photorealistic style", lit "digital art style",
    lit "cinematic dramatic lighting style"]

/-- The template of line 123, given the text of the caption. -/
def stylePrompt (style captionText : JSString) : JSString :=
  lit "A " ++ style ++ lit " version of " ++ captionText

/-- One pass through the body of the `for` loop (lines 123-130): the entry pushed onto
`variations`. -/
def generateStyled (caption : JVal) (style : JSString) : Eff JVal := do
  let captionText ← liftThrows (toJSString caption)
  let data ← axiosPostBinary stableDiffusionUrl
    (.obj [(lit "inputs", .str (stylePrompt style captionText))]) 300000
  let img64 := toBase64 data
  pure (.str (lit "data:image/png;base64," ++ img64))

/-- The `try` block of `POST /api/generate-variations` (lines 99-133). -/
def generateVariationsTry (req : Request) : Eff Response :=
  match req.file with
  | none => pure ⟨400, errorBody "no_file"⟩
  | some buffer => do
    let data ← axiosPost blipUrl (captionPayload buffer) 180000
    let caption ← liftThrows (variationCaption data)
    let mut variations : List JVal := []
    for style in styles do
      let entry ← generateStyled caption style
      variations := variations ++ [entry]
    pure ⟨200, .obj [(lit "caption", caption), (lit "variations", .arr variations)]⟩

/-- The `catch` block of `POST /api/generate-variations` (lines 135-136). -/
def generateVariationsCatch (message : JSString) : Response :=
  ⟨500, errorDetails "variation_failed" message⟩

end IndexJs

/-! ## `index.mjs` -/

namespace IndexMjs

/-- The constant `OPENROUTER_KEY` (line 16): the value of the environment variable, a
string or `undefined`. -/
structure Env where
  OPENROUTER_KEY : JVal

/-- One element of `messages`. -/
def message (role : String) (content : JVal) : JVal :=
  .obj [(lit "role", .str (lit role)), (lit "content", content)]

/-- The argument of `completion` (lines 26-35 and 53-62). -/
def completionParams (env : Env) (model : String) (system : String) (user : JVal) : JVal :=
  .obj [(lit "model", .str (lit model)),
    (lit "api_base", .str (lit "https://openrouter.ai/api/v1")),
    (lit "api_key", env.OPENROUTER_KEY),
    (lit "messages", .arr [message "system" (.str (lit system)), message "user" user]),
    (lit "max_tokens", .num 200)]

/-- The optional chain `out?.choices?.[0]?.message?.content`. -/
def messageContent (out : JVal) : JVal :=
  optField (optField (optIndex (optField out (lit "choices")) 0) (lit "message"))
    (lit "content")

/-- The optional call `content?.trim()` at the end of the chain of line 37. -/
def optTrim (content : JVal) : Throws JVal :=
  match content with
  | .undefined | .null => .ok .undefined
  | .str s => .ok (.str (trim s))
  | _ => .error (lit "out?.choices?.[0]?.message?.content?.trim is not a function")

/-- The `try` block of `POST /api/enhance-text` (lines 23-38). -/
def enhanceTextTry (env : Env) (req : Request) : Eff Response := do
  let prompt ← liftThrows (destructure req.body (lit "req.body") (lit "prompt"))
  if !truthy prompt then pure ⟨400, errorBody "no_prompt"⟩
  else do
    let promptText ← liftThrows (toJSString prompt)
    let out ← completion (completionParams env
      "openrouter/meta-llama/llama-3-8b-instruct:free"
      "Enhance user prompts for image generation. Return only the improved version."
      (.str (lit "Enhance this image prompt: " ++ promptText)))
    let trimmed ← liftThrows (optTrim (messageContent out))
    let enhanced := if truthy trimmed then trimmed else prompt
    pure ⟨200, .obj [(lit "enhanced", enhanced)]⟩

/-- The `catch` block of `POST /api/enhance-text` (lines 40-41). -/
def enhanceTextCatch (message : JSString) : Response :=
  ⟨500, errorDetails "enhance_failed" message⟩

/-- The `try` block of `POST /api/analyze-text` (lines 50-65). -/
def analyzeTextTry (env : Env) (req : Request) : Eff Response := do
  let text ← liftThrows (destructure req.body (lit "req.body") (lit "text"))
  if !truthy text then pure ⟨400, errorBody "no_text"⟩
  else do
    let out ← completion (completionParams env
      "openrouter/anthropic/claude-3-haiku:beta"
      "Analyze the text and return a JSON with sentiment, tone, and intent."
      text)
    let content := messageContent out
    let result := if isNullish content then .str (lit "\x7b\x7d") else content
    pure ⟨200, .obj [(lit "analysis", result)]⟩

/-- The `catch` block of `POST /api/analyze-text` (lines 67-68). -/
def analyzeTextCatch (message : JSString) : Response :=
  ⟨500, errorDetails "analyze_failed" message⟩

/-- The template of lines 80 and 137: the Pollinations address of a prompt. -/
def pollinationsUrl (prompt : JVal) : Throws JSString :=
  match encodeURIComponent prompt with
  | .ok encoded => .ok (lit "https://image.pollinations.ai/prompt/" ++ encoded)
  | .error e => .error e

/-- The `try` block of `POST /api/generate-image` (lines 77-81). -/
def generateImageTry (req : Request) : Eff Response := do
  let prompt ← liftThrows (destructure req.body (lit "req.body") (lit "prompt"))
  if !truthy prompt then pure ⟨400, errorBody "no_prompt"⟩
  else do
    let imageUrl ← liftThrows (pollinationsUrl prompt)
    pure ⟨200, .obj [(lit "image", .str imageUrl)]⟩

/-- The `catch` block of `POST /api/generate-image` (lines 83-84): the message is
logged, the body has the field `error` only. -/
def generateImageCatch (_message : JSString) : Response :=
  ⟨500, errorBody "image_generation_failed"⟩

/-- The `try` block of `POST /api/analyze-image` (lines 93-109). -/
def analyzeImageTry (req : Request) : Eff Response :=
  match req.file with
  | none => pure ⟨400, errorBody "no_file"⟩
  | some buffer => do
    let data ← axiosPost blipUrl (captionPayload buffer) 180000
    let caption ← liftThrows (extractText data)
    pure ⟨200, .obj [(lit "caption", caption)]⟩

/-- The `catch` block of `POST /api/analyze-image` (lines 111-112). -/
def analyzeImageCatch (message : JSString) : Response :=
  ⟨500, errorDetails "image_analysis_failed" message⟩

/-- The array `styles` of line 135. -/
def styles : List JSString :=
  [lit "realistic photo", lit "digital art", lit "cinematic lighting"]

/-- The inner template of line 137, given the text of the caption. -/
def stylePrompt (captionText s : JSString) : JSString :=
  captionText ++ lit " in " ++ s ++ lit " style"

/-- The arrow function passed to `styles.map` (line 137). -/
def variationUrl (caption : JVal) (s : JSString) : Throws JVal :=
  match toJSString caption with
  | .error e => .error e
  | .ok captionText =>
    match pollinationsUrl (.str (stylePrompt captionText s)) with
    | .ok url => .ok (.str url)
    | .error e => .error e

/-- The `try` block of `POST /api/generate-variations` (lines 121-140). -/
def generateVariationsTry (req : Request) : Eff Response :=
  match req.file with
  | none => pure ⟨400, errorBody "no_file"⟩
  | some buffer => do
    let data ← axiosPost blipUrl (captionPayload buffer) 180000
    let caption ← liftThrows (variationCaption data)
    let variations ← liftThrows (styles.mapM (variationUrl caption))
    pure ⟨200, .obj [(lit "caption", caption), (lit "variations", .arr variations)]⟩

/-- The `catch` block of `POST /api/generate-variations` (lines 142-143). -/
def generateVariationsCatch (message : JSString) : Response :=
  ⟨500, errorDetails "variation_failed" message⟩

end IndexMjs

/-! ## The routes of both files -/

/-- The two files. -/
inductive Variant where
  | indexJs
  | indexMjs
  deriving DecidableEq

/-- The `POST` routes. -/
inductive Route where
  | enhanceText
  | analyzeText
  | generateImage
  | analyzeImage
  | generateVariations
  deriving DecidableEq

/-- A registered handler: its `try` block and its `catch` block. -/
structure Handler where
  tryBlock : Request → Eff Response
  catchBlock : JSString → Response

/-- The handler a file registers for a route (`index.js` has no `/api/analyze-text`). -/
def routes (env : IndexMjs.Env) : Variant → Route → Option Handler
  | .indexJs, .enhanceText => some ⟨IndexJs.enhanceTextTry, IndexJs.enhanceTextCatch⟩
  | .indexJs, .analyzeText => none
  | .indexJs, .generateImage => some ⟨IndexJs.generateImageTry, IndexJs.generateImageCatch⟩
  | .indexJs, .analyzeImage => some ⟨IndexJs.analyzeImageTry, IndexJs.analyzeImageCatch⟩
  | .indexJs, .generateVariations =>
    some ⟨IndexJs.generateVariationsTry, IndexJs.generateVariationsCatch⟩
  | .indexMjs, .enhanceText => some ⟨IndexMjs.enhanceTextTry env, IndexMjs.enhanceTextCatch⟩
  | .indexMjs, .analyzeText => some ⟨IndexMjs.analyzeTextTry env, IndexMjs.analyzeTextCatch⟩
  | .indexMjs, .generateImage => some ⟨IndexMjs.generateImageTry, IndexMjs.generateImageCatch⟩
  | .indexMjs, .analyzeImage => some ⟨IndexMjs.analyzeImageTry, IndexMjs.analyzeImageCatch⟩
  | .indexMjs, .generateVariations =>
    some ⟨IndexMjs.generateVariationsTry, IndexMjs.generateVariationsCatch⟩

/-- Running a handler on a request: the response sent and the upstream calls issued. -/
def Handler.respond (h : Handler) (req : Request) (w : World) : Response × List Call :=
  runHandler (h.tryBlock req) h.catchBlock w

/-! ## Vocabulary of the specification -/

/-- The value is a parsed body without the property `name`: a mapping that lacks the
key, or a sequence or primitive value (none of which has such a property).  It is false
for `undefined` and `null`, where no body was parsed at all. -/
def lacksField (name : JSString) : JVal → Bool
  | .obj fields => (lookupField name fields).isNone
  | .undefined => false
  | .null => false
  | _ => true

/-- The request was parsed and comes without the input the route requires: for the
routes that read `prompt` or `text`, `req.body` is neither `undefined` nor `null` and
has no such property; for the upload routes, no file is attached. -/
def inputMissing : Route → Request → Bool
  | .enhanceText, req => lacksField (lit "prompt") req.body
  | .generateImage, req => lacksField (lit "prompt") req.body
  | .analyzeText, req => lacksField (lit "text") req.body
  | .analyzeImage, req => req.file.isNone
  | .generateVariations, req => req.file.isNone

/-- The error code documented for a missing input. -/
def validationCode : Route → String
  | .enhanceText => "no_prompt"
  | .generateImage => "no_prompt"
  | .analyzeText => "no_text"
  | .analyzeImage => "no_file"
  | .generateVariations => "no_file"

/-- The error code documented for an internal failure. -/
def failureKind : Route → String
  | .enhanceText => "enhance_failed"
  | .analyzeText => "analyze_failed"
  | .generateImage => "image_generation_failed"
  | .analyzeImage => "image_analysis_failed"
  | .generateVariations => "variation_failed"

/-- Providers that answer every JSON request with `data` and every binary request with
`bytes`. -/
def constWorld (data : JVal) (bytes : List Byte) : World :=
  ⟨fun _ _ => .ok data, fun _ _ => .ok bytes⟩

/-- The image-generation call of `index.js` for one style, given the text of the
caption. -/
def IndexJs.generationCall (captionText style : JSString) : Call :=
  .axiosPost IndexJs.stableDiffusionUrl
    (.obj [(lit "inputs", .str (IndexJs.stylePrompt style captionText))]) true 300000

/-- The entry `index.js` pushes for the bytes of one generated image. -/
def IndexJs.dataUri (bytes : List Byte) : JVal :=
  .str (lit "data:image/png;base64," ++ toBase64 bytes)

/-- The value is a mapping with a top-level `generated_text` field (normalizer rule 2). -/
def hasGeneratedText : JVal → Bool
  | .obj fields => (lookupField generatedText fields).isSome
  | _ => false

/-- The value is a sequence whose first element has a `generated_text` field
(normalizer rule 1). -/
def firstHasGeneratedText : JVal → Bool
  | .arr (first :: _) => hasGeneratedText first
  | _ => false

/-- Reading `generated_text` the way the chain does raises a `TypeError`: the value is
`undefined` or `null`, an empty sequence, or a sequence whose first element is
`undefined` or `null`. -/
def readsNullish : JVal → Bool
  | .undefined => true
  | .null => true
  | .arr [] => true
  | .arr (first :: _) => isNullish first
  | _ => false

/-- No code unit of the string is a surrogate. -/
def noSurrogate (t : JSString) : Bool :=
  t.all (fun u => !isHighSurrogate u && !isLowSurrogate u)

/-- Providers that answer every JSON request with `data` and a binary request with the
single byte counting the requests issued before it. -/
def countingWorld (data : JVal) : World :=
  ⟨fun _ _ => .ok data, fun history _ => .ok [Fin.ofNat history.length]⟩

/-- Providers that answer every JSON request with `data`, the first `n` binary requests
with no bytes, and every later binary request with a rejection carrying `message`. -/
def failingWorld (data : JVal) (n : Nat) (message : JSString) : World :=
  ⟨fun _ _ => .ok data,
    fun history _ => if history.length ≤ n then .ok [] else .error message⟩

/-- Providers that caption the upload as `a cat`, answer the first generation call with
no bytes and reject every later generation call with `timeout`. -/
def IndexJs.secondCallRejected : World :=
  failingWorld (.arr [.obj [(generatedText, .str (lit "a cat"))]]) 1 (lit "timeout")

/-! ## Basic facts about the handler monad -/

/-- Running `pure`. -/
@[simp] theorem Eff.pure_run {α : Type} (a : α) (w : World) (log : List Call) :
    (Pure.pure a : Eff α) w log = (.ok a, log) := rfl

/-- Running a sequence of two steps. -/
@[simp] theorem Eff.bind_run {α β : Type} (m : Eff α) (f : α → Eff β) (w : World)
    (log : List Call) :
    (m >>= f) w log = (match m w log with
      | (.ok a, log1) => f a w log1
      | (.error e, log1) => (.error e, log1)) := rfl

/-- Destructuring a property that a parsed body lacks yields `undefined`. -/
theorem destructure_lacksField (body : JVal) (src name : JSString)
    (h : lacksField name body = true) : destructure body src name = .ok .undefined := by
  cases body <;> simp [lacksField] at h <;> simp [destructure, getField, h]

/-- Dropping a prefix of a string made of such units only leaves nothing. -/
theorem dropWhile_eq_nil_of_all (p : CodeUnit → Bool) (s : JSString)
    (h : s.all p = true) : s.dropWhile p = [] := by
  induction s with
  | nil => rfl
  | cons u rest ih =>
    simp only [List.all_cons, Bool.and_eq_true] at h
    simp [List.dropWhile, h.1, ih h.2]

/-- Trimming a string of white space only gives the empty string. -/
theorem trim_eq_nil_of_all (s : JSString) (h : s.all isWhiteSpace = true) : trim s = [] := by
  simp [trim, dropWhile_eq_nil_of_all isWhiteSpace s h]

/-! ## C1: missing input -/

/-- C1 (amended): on a request that was parsed (`req.body` neither `undefined` nor
`null`) and lacks the required input, every handler of `index.mjs` (enhance-text or
generate-image with no `prompt`, analyze-text with no `text`, analyze-image or
generate-variations with no file), and the analyze-image and generate-variations
handlers of `index.js` with no file, answer HTTP 400 with the documented code and issue
no upstream call; enhance-text and generate-image of `index.js` have no such guard and
issue one upstream call. -/
theorem missing_input_rejected (env : IndexMjs.Env) (v : Variant) (r : Route) (h : Handler)
    (req : Request) (w : World) (hroute : routes env v r = some h)
    (hmiss : inputMissing r req = true) :
    ((v = .indexMjs ∨ r = .analyzeImage ∨ r = .generateVariations) →
      h.respond req w = (⟨400, errorBody (validationCode r)⟩, [])) ∧
    (v = .indexJs → (r = .enhanceText ∨ r = .generateImage) →
      (h.respond req w).2.length = 1) := by
  obtain ⟨body, file⟩ := req
  cases v <;> cases r <;> simp [routes] at hroute <;> subst hroute <;>
    simp [inputMissing] at hmiss <;>
    simp [Handler.respond, runHandler, IndexJs.analyzeImageTry, IndexJs.generateVariationsTry,
      IndexMjs.analyzeImageTry, IndexMjs.generateVariationsTry, IndexMjs.enhanceTextTry,
      IndexMjs.analyzeTextTry, IndexMjs.generateImageTry, IndexJs.enhanceTextTry,
      IndexJs.generateImageTry, hmiss, liftThrows,
      destructure_lacksField, truthy, validationCode, toJSString, axiosPost,
      axiosPostBinary]
  · cases w.json [] _ <;> simp
    rename_i a
    cases extractText a <;> simp
    rename_i b
    cases callTrim (lit "enhanced") b <;> simp
  · cases w.binary [] _ <;> simp

/-- Witness of C1: enhance-text of `index.mjs` on the empty object, and enhance-text of
`index.js` on the same body. -/
theorem missing_input_rejected_witness :
    routes ⟨.undefined⟩ .indexMjs .enhanceText
        = some ⟨IndexMjs.enhanceTextTry ⟨.undefined⟩, IndexMjs.enhanceTextCatch⟩ ∧
      inputMissing .enhanceText ⟨.obj [], none⟩ = true ∧
      Handler.respond ⟨IndexMjs.enhanceTextTry ⟨.undefined⟩, IndexMjs.enhanceTextCatch⟩
          ⟨.obj [], none⟩ (constWorld .null [])
        = (⟨400, errorBody (validationCode .enhanceText)⟩, []) ∧
      (Handler.respond ⟨IndexJs.enhanceTextTry, IndexJs.enhanceTextCatch⟩
          ⟨.obj [], none⟩ (constWorld .null [])).2.length = 1 :=
  ⟨rfl, rfl,
    (missing_input_rejected ⟨.undefined⟩ .indexMjs .enhanceText _ ⟨.obj [], none⟩
      (constWorld .null []) rfl rfl).1 (Or.inl rfl),
    (missing_input_rejected ⟨.undefined⟩ .indexJs .enhanceText _ ⟨.obj [], none⟩
      (constWorld .null []) rfl rfl).2 rfl (Or.inl rfl)⟩

/-- Counterexample to C1 as stated: enhance-text of `index.js`, invoked with the empty
object as body (no prompt), forwards the text `undefined` upstream and answers 200; and
enhance-text of `index.mjs`, invoked with no body at all (`req.body` undefined), raises
in the destructuring before its guard and answers 500, as does enhance-text of
`index.js`, without an upstream call. -/
theorem indexJs_enhanceText_forwards_missing_prompt :
    (routes ⟨.undefined⟩ .indexJs .enhanceText
        = some ⟨IndexJs.enhanceTextTry, IndexJs.enhanceTextCatch⟩ ∧
      inputMissing .enhanceText ⟨.obj [], none⟩ = true ∧
      Handler.respond ⟨IndexJs.enhanceTextTry, IndexJs.enhanceTextCatch⟩ ⟨.obj [], none⟩
          (constWorld (.arr [.obj [(generatedText, .str (lit "a cat"))]]) [])
        = (⟨200, .obj [(lit "enhanced", .str (lit "a cat"))]⟩,
            [.axiosPost IndexJs.flanUrl
              (.obj [(lit "inputs",
                .str (lit "Enhance this text prompt for image generation:\nundefined"))])
              false 120000])) ∧
    (routes ⟨.undefined⟩ .indexMjs .enhanceText
        = some ⟨IndexMjs.enhanceTextTry ⟨.undefined⟩, IndexMjs.enhanceTextCatch⟩ ∧
      (Handler.respond ⟨IndexMjs.enhanceTextTry ⟨.undefined⟩, IndexMjs.enhanceTextCatch⟩
          ⟨.undefined, none⟩ (constWorld (.arr []) [])).1.status = 500 ∧
      getField
          (Handler.respond ⟨IndexMjs.enhanceTextTry ⟨.undefined⟩, IndexMjs.enhanceTextCatch⟩
            ⟨.undefined, none⟩ (constWorld (.arr []) [])).1.body (lit "error")
        = .ok (.str (lit "enhance_failed")) ∧
      (Handler.respond ⟨IndexJs.enhanceTextTry, IndexJs.enhanceTextCatch⟩
          ⟨.undefined, none⟩ (constWorld (.arr []) [])).1.status = 500 ∧
      (Handler.respond ⟨IndexJs.enhanceTextTry, IndexJs.enhanceTextCatch⟩
          ⟨.undefined, none⟩ (constWorld (.arr []) [])).2 = []) :=
  ⟨⟨rfl, rfl, rfl⟩, rfl, rfl, rfl, rfl, rfl⟩

/-! ## C2: the failure envelope -/

/-- Every handler other than generate-image of `index.mjs` maps an exception with
message `m` raised in its `try` block to HTTP 500 with the two fields `error` (the code
of the route) and `details` (the message). -/
theorem failure_envelope (env : IndexMjs.Env) (v : Variant) (r : Route) (h : Handler)
    (req : Request) (w : World) (m : JSString) (hroute : routes env v r = some h)
    (hother : ¬ (v = .indexMjs ∧ r = .generateImage))
    (hfail : (h.tryBlock req w []).1 = .error m) :
    (h.respond req w).1 = ⟨500, errorDetails (failureKind r) m⟩ := by
  have key : ∀ (t : Eff Response) (c : JSString → Response),
      (t w []).1 = .error m → (runHandler t c w).1 = c m := by
    intro t c ht
    unfold runHandler
    rcases hres : t w [] with ⟨res, log⟩
    rw [hres] at ht
    simp only at ht
    subst ht
    rfl
  cases v <;> cases r <;> simp [routes] at hroute <;> subst hroute <;>
    simp at hother <;> exact key _ _ hfail

/-- Witness of the failure envelope: analyze-image of `index.js` when the captioning call
is rejected with `timeout`. -/
theorem failure_envelope_witness :
    (Handler.respond ⟨IndexJs.analyzeImageTry, IndexJs.analyzeImageCatch⟩
        ⟨.obj [], some [1, 2, 3]⟩ ⟨fun _ _ => .error (lit "timeout"), fun _ _ => .ok []⟩).1
      = ⟨500, .obj [(lit "error", .str (lit "image_analysis_failed")),
          (lit "details", .str (lit "timeout"))]⟩ :=
  failure_envelope ⟨.undefined⟩ .indexJs .analyzeImage _ ⟨.obj [], some [1, 2, 3]⟩
    ⟨fun _ _ => .error (lit "timeout"), fun _ _ => .ok []⟩ (lit "timeout") rfl (by decide) rfl

/-- C2 at the failing input: generate-image of `index.mjs` on the body whose `prompt` is
the unpaired surrogate `\ud800`.  The `try` block raises (`encodeURIComponent` throws
`URIError: URI malformed`), and the response is 500 with the field `error` only: the
serialised body has no `details`. -/
theorem indexMjs_generateImage_failure_omits_details (w : World) :
    (IndexMjs.generateImageTry ⟨.obj [(lit "prompt", .str [0xD800])], none⟩ w []).1
        = .error (lit "URI malformed") ∧
      Handler.respond ⟨IndexMjs.generateImageTry, IndexMjs.generateImageCatch⟩
          ⟨.obj [(lit "prompt", .str [0xD800])], none⟩ w
        = (⟨500, .obj [(lit "error", .str (lit "image_generation_failed"))]⟩, []) ∧
      stringify (.obj [(lit "error", .str (lit "image_generation_failed"))])
        = some (lit "\x7b\x22error\x22:\x22image_generation_failed\x22\x7d") :=
  ⟨rfl, rfl, rfl⟩

/-! ## C3, C4: the two extraction rules -/

/-- C3 (amended): for every non-empty text `T`, the chain extracts exactly `T` from the
one-element sequence holding the mapping with `generated_text: T`. -/
theorem extractText_sequence (T : JSString) (hT : T ≠ []) :
    extractText (.arr [.obj [(generatedText, .str T)]]) = .ok (.str T) := by
  simp [extractText, firstGeneratedText, isArray, getIndex, getField, lookupField, truthy, hT]

/-- Witness of C3: the caption of the specification example. -/
theorem extractText_sequence_witness :
    lit "a cat sitting on a windowsill" ≠ [] ∧
      extractText (.arr [.obj [(generatedText, .str (lit "a cat sitting on a windowsill"))]])
        = .ok (.str (lit "a cat sitting on a windowsill")) :=
  ⟨by decide, extractText_sequence (lit "a cat sitting on a windowsill") (by decide)⟩

/-- Counterexample to C3 as stated: for the empty text the chain returns the serialised
response, not the empty text. -/
theorem extractText_sequence_empty :
    extractText (.arr [.obj [(generatedText, .str [])]])
        = .ok (.str (lit "[\x7b\x22generated_text\x22:\x22\x22\x7d]")) ∧
      extractText (.arr [.obj [(generatedText, .str [])]]) ≠ .ok (.str []) :=
  ⟨rfl, fun h => by
    rw [show extractText (.arr [.obj [(generatedText, .str [])]])
      = .ok (.str (lit "[\x7b\x22generated_text\x22:\x22\x22\x7d]")) from rfl] at h
    cases h⟩

/-- C4 (amended): for every non-empty text `T`, the chain extracts exactly `T` from the
mapping with `generated_text: T`. -/
theorem extractText_mapping (T : JSString) (hT : T ≠ []) :
    extractText (.obj [(generatedText, .str T)]) = .ok (.str T) := by
  simp [extractText, firstGeneratedText, isArray, getField, lookupField, truthy, hT]

/-- Witness of C4. -/
theorem extractText_mapping_witness :
    lit "a dog" ≠ [] ∧
      extractText (.obj [(generatedText, .str (lit "a dog"))]) = .ok (.str (lit "a dog")) :=
  ⟨by decide, extractText_mapping (lit "a dog") (by decide)⟩

/-- Counterexample to C4 as stated: for the empty text the chain returns the serialised
response, not the empty text. -/
theorem extractText_mapping_empty :
    extractText (.obj [(generatedText, .str [])])
        = .ok (.str (lit "\x7b\x22generated_text\x22:\x22\x22\x7d")) ∧
      extractText (.obj [(generatedText, .str [])]) ≠ .ok (.str []) :=
  ⟨rfl, fun h => by
    rw [show extractText (.obj [(generatedText, .str [])])
      = .ok (.str (lit "\x7b\x22generated_text\x22:\x22\x22\x7d")) from rfl] at h
    cases h⟩

/-! ## C5: the fallback -/

/-- The fallback of the chain: a response that matches neither rule, and on which the
property reads of the chain do not raise, is returned serialised. -/
theorem extractText_fallback (data : JVal) (h1 : firstHasGeneratedText data = false)
    (h2 : hasGeneratedText data = false) (h3 : readsNullish data = false) :
    extractText data = .ok (jsonStringify data) := by
  cases data with
  | undefined => simp [readsNullish] at h3
  | null => simp [readsNullish] at h3
  | bool b => simp [extractText, firstGeneratedText, isArray, getField, truthy]
  | num n => simp [extractText, firstGeneratedText, isArray, getField, truthy]
  | str s => simp [extractText, firstGeneratedText, isArray, getField, truthy]
  | obj fields =>
    have h4 : lookupField generatedText fields = none := by
      cases hl : lookupField generatedText fields <;> simp [hasGeneratedText, hl] at h2 ⊢
    simp [extractText, firstGeneratedText, isArray, getField, truthy, h4]
  | arr xs =>
    cases xs with
    | nil => simp [readsNullish] at h3
    | cons first rest =>
      cases first with
      | undefined => simp [readsNullish, isNullish] at h3
      | null => simp [readsNullish, isNullish] at h3
      | bool b => simp [extractText, firstGeneratedText, isArray, getIndex, getField, truthy]
      | num n => simp [extractText, firstGeneratedText, isArray, getIndex, getField, truthy]
      | str s => simp [extractText, firstGeneratedText, isArray, getIndex, getField, truthy]
      | arr ys => simp [extractText, firstGeneratedText, isArray, getIndex, getField, truthy]
      | obj fields =>
        have h4 : lookupField generatedText fields = none := by
          cases hl : lookupField generatedText fields <;>
            simp [firstHasGeneratedText, hasGeneratedText, hl] at h1 ⊢
        simp [extractText, firstGeneratedText, isArray, getIndex, getField, truthy, h4]

/-- Witness of the fallback: the number 5, a bare string and the sequence holding one
empty mapping are returned serialised. -/
theorem extractText_fallback_witness :
    extractText (.num 5) = .ok (.str (lit "5")) ∧
      extractText (.str (lit "abc")) = .ok (.str (lit "\x22abc\x22")) ∧
      extractText (.arr [.obj []]) = .ok (.str (lit "[\x7b\x7d]")) :=
  ⟨extractText_fallback (.num 5) rfl rfl rfl,
    extractText_fallback (.str (lit "abc")) rfl rfl rfl,
    extractText_fallback (.arr [.obj []]) rfl rfl rfl⟩

/-- C5 at the failing inputs: the empty sequence, the sequence holding `null` and
`null` itself match neither rule, and on each the chain raises a `TypeError` instead of
returning the serialised response; enhance-text of `index.js` then answers 500
`enhance_failed` for the provider response `[]`. -/
theorem extractText_raises_on_empty_sequence :
    (firstHasGeneratedText (.arr []) = false ∧ hasGeneratedText (.arr []) = false ∧
      extractText (.arr []) = .error
        (lit "Cannot read properties of undefined (reading \x27generated_text\x27)")) ∧
    (firstHasGeneratedText (.arr [.null]) = false ∧ hasGeneratedText (.arr [.null]) = false ∧
      extractText (.arr [.null]) = .error
        (lit "Cannot read properties of null (reading \x27generated_text\x27)")) ∧
    (firstHasGeneratedText .null = false ∧ hasGeneratedText .null = false ∧
      extractText .null = .error
        (lit "Cannot read properties of null (reading \x27generated_text\x27)")) ∧
    jsonStringify (.arr []) = .str (lit "[]") ∧
    Handler.respond ⟨IndexJs.enhanceTextTry, IndexJs.enhanceTextCatch⟩
        ⟨.obj [(lit "prompt", .str (lit "a cat"))], none⟩ (constWorld (.arr []) [])
      = (⟨500, errorDetails "enhance_failed"
            (lit "Cannot read properties of undefined (reading \x27generated_text\x27)")⟩,
          [.axiosPost IndexJs.flanUrl
            (.obj [(lit "inputs",
              .str (lit "Enhance this text prompt for image generation:\na cat"))])
            false 120000]) :=
  ⟨⟨rfl, rfl, rfl⟩, ⟨rfl, rfl, rfl⟩, ⟨rfl, rfl, rfl⟩, rfl, rfl⟩

/-! ## C6: the blank caption -/

/-- C6 (amended): in analyze-image of `index.js`, whenever the caption extracted from
the captioning response is a non-empty text that consists only of whitespace, the
response is 200 with exactly `caption: "Could not analyze image."`; analyze-image of
`index.mjs` has no such check and returns the extracted caption unchanged. -/
theorem analyzeImage_blank_caption (body : JVal) (buffer : List Byte) (w : World)
    (data : JVal) (s : JSString)
    (hcap : w.json [] (captionCall buffer) = .ok data)
    (hext : extractText data = .ok (.str s))
    (hne : s ≠ [])
    (hblank : s.all isWhiteSpace = true) :
    Handler.respond ⟨IndexJs.analyzeImageTry, IndexJs.analyzeImageCatch⟩
        ⟨body, some buffer⟩ w
      = (⟨200, .obj [(lit "caption", .str (lit "Could not analyze image."))]⟩,
          [captionCall buffer]) ∧
    Handler.respond ⟨IndexMjs.analyzeImageTry, IndexMjs.analyzeImageCatch⟩
        ⟨body, some buffer⟩ w
      = (⟨200, .obj [(lit "caption", .str s)]⟩, [captionCall buffer]) := by
  have ht := trim_eq_nil_of_all s hblank
  unfold captionCall at hcap
  constructor
  · simp [Handler.respond, runHandler, IndexJs.analyzeImageTry, axiosPost, liftThrows, hcap,
      hext, IndexJs.blankFallback, callTrim, ht, captionCall, truthy, hne]
  · simp [Handler.respond, runHandler, IndexMjs.analyzeImageTry, axiosPost, liftThrows, hcap,
      hext, captionCall]

/-- Witness of C6: the captioning response whose `generated_text` is two spaces. -/
theorem analyzeImage_blank_caption_witness :
    (constWorld (.arr [.obj [(generatedText, .str (lit "  "))]]) []).json []
        (captionCall [1, 2, 3])
      = .ok (.arr [.obj [(generatedText, .str (lit "  "))]]) ∧
    extractText (.arr [.obj [(generatedText, .str (lit "  "))]]) = .ok (.str (lit "  ")) ∧
    lit "  " ≠ [] ∧
    (lit "  ").all isWhiteSpace = true ∧
    Handler.respond ⟨IndexJs.analyzeImageTry, IndexJs.analyzeImageCatch⟩
        ⟨.obj [], some [1, 2, 3]⟩
        (constWorld (.arr [.obj [(generatedText, .str (lit "  "))]]) [])
      = (⟨200, .obj [(lit "caption", .str (lit "Could not analyze image."))]⟩,
          [captionCall [1, 2, 3]]) ∧
    Handler.respond ⟨IndexMjs.analyzeImageTry, IndexMjs.analyzeImageCatch⟩
        ⟨.obj [], some [1, 2, 3]⟩
        (constWorld (.arr [.obj [(generatedText, .str (lit "  "))]]) [])
      = (⟨200, .obj [(lit "caption", .str (lit "  "))]⟩, [captionCall [1, 2, 3]]) :=
  ⟨rfl, rfl, by decide, rfl,
    analyzeImage_blank_caption (.obj []) [1, 2, 3]
      (constWorld (.arr [.obj [(generatedText, .str (lit "  "))]]) [])
      (.arr [.obj [(generatedText, .str (lit "  "))]]) (lit "  ") rfl rfl (by decide) rfl⟩

/-- The empty caption in `index.js`: for the captioning response whose `generated_text`
is the empty text, the chain assigns the serialised response to `caption`, the test of
line 84 does not fire, and analyze-image answers that serialised response, not
`Could not analyze image.` as the comment of line 83 announces. -/
theorem indexJs_analyzeImage_empty_generated_text :
    extractText (.arr [.obj [(generatedText, .str [])]])
      = .ok (.str (lit "[\x7b\x22generated_text\x22:\x22\x22\x7d]")) ∧
    Handler.respond ⟨IndexJs.analyzeImageTry, IndexJs.analyzeImageCatch⟩
        ⟨.obj [], some [1, 2, 3]⟩
        (constWorld (.arr [.obj [(generatedText, .str [])]]) [])
      = (⟨200, .obj [(lit "caption",
            .str (lit "[\x7b\x22generated_text\x22:\x22\x22\x7d]"))]⟩,
          [captionCall [1, 2, 3]]) :=
  ⟨rfl, rfl⟩

/-- Counterexample to C6 as stated: analyze-image of `index.mjs` returns a caption of
one space as it is. -/
theorem indexMjs_analyzeImage_keeps_blank_caption :
    extractText (.arr [.obj [(generatedText, .str (lit " "))]]) = .ok (.str (lit " ")) ∧
    (lit " ").all isWhiteSpace = true ∧
    Handler.respond ⟨IndexMjs.analyzeImageTry, IndexMjs.analyzeImageCatch⟩
        ⟨.obj [], some [1, 2, 3]⟩
        (constWorld (.arr [.obj [(generatedText, .str (lit " "))]]) [])
      = (⟨200, .obj [(lit "caption", .str (lit " "))]⟩, [captionCall [1, 2, 3]]) :=
  ⟨rfl, rfl, rfl⟩

/-! ## Well-formed strings and `encodeURIComponent` -/

/-- An unescaped character is not a surrogate. -/
theorem isUnescaped_not_surrogate (u : CodeUnit) (h : isUnescaped u = true) :
    isHighSurrogate u = false ∧ isLowSurrogate u = false := by
  simp only [isUnescaped, isHighSurrogate, isLowSurrogate, Bool.or_eq_true, Bool.and_eq_true,
    decide_eq_true_eq, Bool.and_eq_false_iff, decide_eq_false_iff_not] at *
  omega

/-- On a string without unpaired surrogate `Encode` does not raise. -/
theorem encodeUnits_wellFormed (s : JSString) (h : isWellFormed s = true) :
    ∃ u, encodeUnits s = .ok u := by
  induction s using isWellFormed.induct with
  | case1 => exact ⟨[], rfl⟩
  | case2 u =>
    simp only [isWellFormed, Bool.and_eq_true, Bool.not_eq_true'] at h
    by_cases hu : isUnescaped u = true
    · exact ⟨[u], by simp [encodeUnits, hu]⟩
    · exact ⟨percentEncode u.val, by simp [encodeUnits, hu, h.1, h.2]⟩
  | case3 u l rest hhigh ih =>
    simp only [isWellFormed, hhigh, if_true, Bool.and_eq_true] at h
    obtain ⟨t, ht⟩ := ih h.2
    have hu : isUnescaped u = false := by
      cases hx : isUnescaped u
      · rfl
      · have := (isUnescaped_not_surrogate u hx).1
        rw [hhigh] at this
        cases this
    exact ⟨percentEncode (pairCodePoint u l) ++ t, by simp [encodeUnits, hu, hhigh, h.1, ht]⟩
  | case4 u l rest hhigh ih =>
    have hhigh2 : isHighSurrogate u = false := by simpa using hhigh
    simp only [isWellFormed, hhigh2, Bool.false_eq_true, if_false, Bool.and_eq_true,
      Bool.not_eq_true'] at h
    obtain ⟨t, ht⟩ := ih h.2
    by_cases hu : isUnescaped u = true
    · exact ⟨u :: t, by simp [encodeUnits, hu, ht]⟩
    · exact ⟨percentEncode u.val ++ t, by simp [encodeUnits, hu, hhigh2, h.1, ht]⟩



/-- A string without surrogates is well-formed. -/
theorem isWellFormed_of_noSurrogate (t : JSString) (h : noSurrogate t = true) :
    isWellFormed t = true := by
  induction t using isWellFormed.induct with
  | case1 => rfl
  | case2 u => simpa [noSurrogate, isWellFormed] using h
  | case3 u l rest hhigh ih =>
    simp [noSurrogate, hhigh] at h
  | case4 u l rest hhigh ih =>
    have hhigh2 : isHighSurrogate u = false := by simpa using hhigh
    simp only [noSurrogate, List.all_cons, Bool.and_eq_true, Bool.not_eq_true'] at h
    have := ih (by simp [noSurrogate, h.2.1, h.2.2])
    simp [isWellFormed, hhigh2, h.1.2, this]

/-- Appending a string without surrogates keeps a string well-formed. -/
theorem isWellFormed_append (s t : JSString) (hs : isWellFormed s = true)
    (ht : noSurrogate t = true) : isWellFormed (s ++ t) = true := by
  induction s using isWellFormed.induct with
  | case1 => simpa using isWellFormed_of_noSurrogate t ht
  | case2 u =>
    simp only [isWellFormed, Bool.and_eq_true, Bool.not_eq_true'] at hs
    cases t with
    | nil => simp [isWellFormed, hs.1, hs.2]
    | cons v rest =>
      have := isWellFormed_of_noSurrogate (v :: rest) ht
      simp [isWellFormed, hs.1, hs.2, this]
  | case3 u l rest hhigh ih =>
    simp only [isWellFormed, hhigh, if_true, Bool.and_eq_true] at hs
    simp [isWellFormed, hhigh, hs.1, ih hs.2]
  | case4 u l rest hhigh ih =>
    have hhigh2 : isHighSurrogate u = false := by simpa using hhigh
    simp only [isWellFormed, hhigh2, Bool.false_eq_true, if_false, Bool.and_eq_true,
      Bool.not_eq_true'] at hs
    have := ih hs.2
    simp only [List.cons_append] at this
    simp [isWellFormed, hhigh2, hs.1, this]

/-- The text of a string is the string. -/
theorem toJSString_str (s : JSString) : toJSString (.str s) = .ok s := by
  simp [toJSString]

/-- For a caption with well-formed text and a style without surrogates, the arrow function
of `styles.map` returns the Pollinations address of the encoded prompt. -/
theorem indexMjs_variationUrl_wellFormed (c : JVal) (text s : JSString)
    (ht : toJSString c = .ok text) (hwf : isWellFormed text = true)
    (hs : noSurrogate s = true) :
    ∃ u, encodeURIComponent (.str (IndexMjs.stylePrompt text s)) = .ok u ∧
      IndexMjs.variationUrl c s = .ok (.str (lit "https://image.pollinations.ai/prompt/" ++ u)) := by
  have h1 : isWellFormed (IndexMjs.stylePrompt text s) = true := by
    unfold IndexMjs.stylePrompt
    exact isWellFormed_append _ _ (isWellFormed_append _ _ (isWellFormed_append _ _ hwf
      (by decide)) hs) (by decide)
  obtain ⟨u, hu⟩ := encodeUnits_wellFormed _ h1
  refine ⟨u, ?_, ?_⟩
  · simp only [encodeURIComponent, toJSString_str, hu]
  · simp only [IndexMjs.variationUrl, ht, IndexMjs.pollinationsUrl, encodeURIComponent,
      toJSString_str, hu]

/-! ## The success path of generate-variations -/

/-- The success path of generate-variations of `index.js`: caption resolved, three
generation calls answered. -/
theorem indexJs_generateVariations_success (body : JVal) (buffer : List Byte) (w : World)
    (data c : JVal) (text : JSString) (bytes : Nat → List Byte)
    (hcap : w.json [] (captionCall buffer) = .ok data)
    (hc : variationCaption data = .ok c) (ht : toJSString c = .ok text)
    (hgen : ∀ i, i < 3 →
      w.binary (captionCall buffer :: (IndexJs.styles.take i).map (IndexJs.generationCall text))
        (IndexJs.generationCall text (IndexJs.styles.getD i [])) = .ok (bytes i)) :
    Handler.respond ⟨IndexJs.generateVariationsTry, IndexJs.generateVariationsCatch⟩
        ⟨body, some buffer⟩ w
      = (⟨200, .obj [(lit "caption", c), (lit "variations",
            .arr [IndexJs.dataUri (bytes 0), IndexJs.dataUri (bytes 1),
              IndexJs.dataUri (bytes 2)])]⟩,
          captionCall buffer :: IndexJs.styles.map (IndexJs.generationCall text)) := by
  have h0 := hgen 0 (by decide)
  have h1 := hgen 1 (by decide)
  have h2 := hgen 2 (by decide)
  simp only [IndexJs.styles, List.take, List.map, List.getD_cons_zero, List.getD_cons_succ,
    IndexJs.generationCall, captionCall] at h0 h1 h2 hcap
  simp [Handler.respond, runHandler, IndexJs.generateVariationsTry, axiosPost, liftThrows,
    IndexJs.styles, IndexJs.generateStyled, axiosPostBinary, hcap, hc, ht, h0, h1, h2,
    IndexJs.generationCall, captionCall, IndexJs.dataUri]

/-- The success path of generate-variations of `index.mjs`: caption resolved, with
well-formed text. -/
theorem indexMjs_generateVariations_success (body : JVal) (buffer : List Byte) (w : World)
    (data c : JVal) (text : JSString)
    (hcap : w.json [] (captionCall buffer) = .ok data)
    (hc : variationCaption data = .ok c) (ht : toJSString c = .ok text)
    (hwf : isWellFormed text = true) :
    ∃ u1 u2 u3,
      encodeURIComponent (.str (text ++ lit " in realistic photo style")) = .ok u1 ∧
      encodeURIComponent (.str (text ++ lit " in digital art style")) = .ok u2 ∧
      encodeURIComponent (.str (text ++ lit " in cinematic lighting style")) = .ok u3 ∧
      Handler.respond ⟨IndexMjs.generateVariationsTry, IndexMjs.generateVariationsCatch⟩
          ⟨body, some buffer⟩ w
        = (⟨200, .obj [(lit "caption", c), (lit "variations",
              .arr [.str (lit "https://image.pollinations.ai/prompt/" ++ u1),
                .str (lit "https://image.pollinations.ai/prompt/" ++ u2),
                .str (lit "https://image.pollinations.ai/prompt/" ++ u3)])]⟩,
            [captionCall buffer]) := by
  obtain ⟨u1, e1, v1⟩ := indexMjs_variationUrl_wellFormed c text (lit "realistic photo") ht hwf
    (by decide)
  obtain ⟨u2, e2, v2⟩ := indexMjs_variationUrl_wellFormed c text (lit "digital art") ht hwf
    (by decide)
  obtain ⟨u3, e3, v3⟩ := indexMjs_variationUrl_wellFormed c text (lit "cinematic lighting") ht
    hwf (by decide)
  have p1 : IndexMjs.stylePrompt text (lit "realistic photo")
      = text ++ lit " in realistic photo style" := by
    simp only [IndexMjs.stylePrompt, List.append_assoc]; rfl
  have p2 : IndexMjs.stylePrompt text (lit "digital art")
      = text ++ lit " in digital art style" := by
    simp only [IndexMjs.stylePrompt, List.append_assoc]; rfl
  have p3 : IndexMjs.stylePrompt text (lit "cinematic lighting")
      = text ++ lit " in cinematic lighting style" := by
    simp only [IndexMjs.stylePrompt, List.append_assoc]; rfl
  rw [p1] at e1
  rw [p2] at e2
  rw [p3] at e3
  refine ⟨u1, u2, u3, e1, e2, e3, ?_⟩
  have hm : IndexMjs.styles.mapM (IndexMjs.variationUrl c)
      = .ok [.str (lit "https://image.pollinations.ai/prompt/" ++ u1),
          .str (lit "https://image.pollinations.ai/prompt/" ++ u2),
          .str (lit "https://image.pollinations.ai/prompt/" ++ u3)] := by
    simp [IndexMjs.styles, List.mapM, List.mapM.loop, v1, v2, v3, bind, Except.bind, pure,
      Except.pure]
  unfold captionCall at hcap
  simp only [Handler.respond, runHandler, IndexMjs.generateVariationsTry, Eff.bind_run,
    Eff.pure_run, axiosPost, liftThrows, hcap, hc, hm, captionCall, List.nil_append]

/-! ## C7: three variations in style order -/

/-- C7 (amended): when the captioning call succeeds, the caption is resolved from its
response without an exception and has the text `text`, then
(`index.js`) if the three generation calls succeed, the response is 200 with exactly
three variations, the i-th being the data URI of the bytes returned by the i-th call,
made for the i-th style with the prompt `A <style> version of <caption>`;
(`index.mjs`) if `text` is well-formed, the response is 200 with exactly three
variations, the Pollinations addresses of the caption in the styles `realistic photo`,
`digital art`, `cinematic lighting`, in that order. -/
theorem variations_three_in_style_order (body : JVal) (buffer : List Byte) (w : World)
    (data c : JVal) (text : JSString)
    (hcap : w.json [] (captionCall buffer) = .ok data)
    (hc : variationCaption data = .ok c) (ht : toJSString c = .ok text) :
    (IndexJs.styles = [lit "photorealistic style", lit "digital art style",
        lit "cinematic dramatic lighting style"] ∧
      (∀ style, IndexJs.generationCall text style
        = .axiosPost IndexJs.stableDiffusionUrl
            (.obj [(lit "inputs", .str (lit "A " ++ style ++ lit " version of " ++ text))])
            true 300000) ∧
      ∀ bytes : Nat → List Byte,
        (∀ i, i < 3 →
          w.binary
            (captionCall buffer :: (IndexJs.styles.take i).map (IndexJs.generationCall text))
            (IndexJs.generationCall text (IndexJs.styles.getD i [])) = .ok (bytes i)) →
        Handler.respond ⟨IndexJs.generateVariationsTry, IndexJs.generateVariationsCatch⟩
            ⟨body, some buffer⟩ w
          = (⟨200, .obj [(lit "caption", c), (lit "variations",
                .arr [IndexJs.dataUri (bytes 0), IndexJs.dataUri (bytes 1),
                  IndexJs.dataUri (bytes 2)])]⟩,
              captionCall buffer :: IndexJs.styles.map (IndexJs.generationCall text))) ∧
    (IndexMjs.styles = [lit "realistic photo", lit "digital art", lit "cinematic lighting"] ∧
      (isWellFormed text = true →
        ∃ u1 u2 u3,
          IndexMjs.variationUrl c (lit "realistic photo")
            = .ok (.str (lit "https://image.pollinations.ai/prompt/" ++ u1)) ∧
          IndexMjs.variationUrl c (lit "digital art")
            = .ok (.str (lit "https://image.pollinations.ai/prompt/" ++ u2)) ∧
          IndexMjs.variationUrl c (lit "cinematic lighting")
            = .ok (.str (lit "https://image.pollinations.ai/prompt/" ++ u3)) ∧
          Handler.respond ⟨IndexMjs.generateVariationsTry, IndexMjs.generateVariationsCatch⟩
              ⟨body, some buffer⟩ w
            = (⟨200, .obj [(lit "caption", c), (lit "variations",
                  .arr [.str (lit "https://image.pollinations.ai/prompt/" ++ u1),
                    .str (lit "https://image.pollinations.ai/prompt/" ++ u2),
                    .str (lit "https://image.pollinations.ai/prompt/" ++ u3)])]⟩,
                [captionCall buffer]))) := by
  refine ⟨⟨rfl, fun _ => rfl, fun bytes hgen =>
    indexJs_generateVariations_success body buffer w data c text bytes hcap hc ht hgen⟩,
    rfl, fun hwf => ?_⟩
  obtain ⟨v1, _, h1⟩ := indexMjs_variationUrl_wellFormed c text (lit "realistic photo") ht hwf
    (by decide)
  obtain ⟨v2, _, h2⟩ := indexMjs_variationUrl_wellFormed c text (lit "digital art") ht hwf
    (by decide)
  obtain ⟨v3, _, h3⟩ := indexMjs_variationUrl_wellFormed c text (lit "cinematic lighting") ht
    hwf (by decide)
  refine ⟨v1, v2, v3, h1, h2, h3, ?_⟩
  have hm : IndexMjs.styles.mapM (IndexMjs.variationUrl c)
      = .ok [.str (lit "https://image.pollinations.ai/prompt/" ++ v1),
          .str (lit "https://image.pollinations.ai/prompt/" ++ v2),
          .str (lit "https://image.pollinations.ai/prompt/" ++ v3)] := by
    simp [IndexMjs.styles, List.mapM, List.mapM.loop, h1, h2, h3, bind, Except.bind, pure,
      Except.pure]
  unfold captionCall at hcap
  simp only [Handler.respond, runHandler, IndexMjs.generateVariationsTry, Eff.bind_run,
    Eff.pure_run, axiosPost, liftThrows, hcap, hc, hm, captionCall, List.nil_append]

/-- Witness of C7: the caption `a cat`, with providers that return one distinct byte per
generation call. -/
theorem variations_three_in_style_order_witness :
    (countingWorld (.arr [.obj [(generatedText, .str (lit "a cat"))]])).json []
        (captionCall [1, 2, 3])
      = .ok (.arr [.obj [(generatedText, .str (lit "a cat"))]]) ∧
    variationCaption (.arr [.obj [(generatedText, .str (lit "a cat"))]])
      = .ok (.str (lit "a cat")) ∧
    toJSString (.str (lit "a cat")) = .ok (lit "a cat") ∧
    Handler.respond ⟨IndexJs.generateVariationsTry, IndexJs.generateVariationsCatch⟩
        ⟨.obj [], some [1, 2, 3]⟩
        (countingWorld (.arr [.obj [(generatedText, .str (lit "a cat"))]]))
      = (⟨200, .obj [(lit "caption", .str (lit "a cat")), (lit "variations",
            .arr [.str (lit "data:image/png;base64,AQ=="),
              .str (lit "data:image/png;base64,Ag=="),
              .str (lit "data:image/png;base64,Aw==")])]⟩,
          [captionCall [1, 2, 3],
            IndexJs.generationCall (lit "a cat") (lit "photorealistic style"),
            IndexJs.generationCall (lit "a cat") (lit "digital art style"),
            IndexJs.generationCall (lit "a cat") (lit "cinematic dramatic lighting style")]) ∧
    isWellFormed (lit "a cat") = true :=
  ⟨rfl, rfl, rfl,
    ((variations_three_in_style_order (.obj []) [1, 2, 3]
      (countingWorld (.arr [.obj [(generatedText, .str (lit "a cat"))]]))
      (.arr [.obj [(generatedText, .str (lit "a cat"))]]) (.str (lit "a cat")) (lit "a cat")
      rfl rfl rfl).1.2.2 (fun i => [Fin.ofNat (i + 1)])
      (fun i hi => by interval_cases i <;> rfl)).trans (by rfl),
    rfl⟩

/-- Counterexample to C7 as stated: every upstream call succeeds and no variations are
returned.  In `index.mjs` the caption returned by the captioning provider is the unpaired
surrogate `\ud800`, on which `encodeURIComponent` raises; in `index.js` the caption is a
mapping with an own `toString` property, which the template literal cannot convert to
text.  Both handlers answer 500 after the captioning call. -/
theorem indexMjs_variations_malformed_caption :
    Handler.respond ⟨IndexMjs.generateVariationsTry, IndexMjs.generateVariationsCatch⟩
        ⟨.obj [], some [1, 2, 3]⟩
        (constWorld (.arr [.obj [(generatedText, .str [0xD800])]]) [])
      = (⟨500, errorDetails "variation_failed" (lit "URI malformed")⟩,
          [captionCall [1, 2, 3]]) ∧
    Handler.respond ⟨IndexJs.generateVariationsTry, IndexJs.generateVariationsCatch⟩
        ⟨.obj [], some [1, 2, 3]⟩
        (constWorld (.arr [.obj [(generatedText, .obj [(lit "toString", .num 1)])]]) [])
      = (⟨500, errorDetails "variation_failed"
            (lit "Cannot convert object to primitive value")⟩,
          [captionCall [1, 2, 3]]) :=
  ⟨rfl, rfl⟩

/-! ## C8: no partial list -/

/-- When step 1 of generate-variations of `index.js` has resolved a caption with text
`text`, the first `k - 1` generation calls succeed and the k-th (k = 1, 2, 3) is rejected
with message `m`, the response is 500 `variation_failed` with `details: m`, and the calls
issued are the captioning call and the first k generation calls; when the captioning call
is rejected with message `m`, the response is the same envelope after that one call. -/
theorem indexJs_generateVariations_failure (body : JVal) (buffer : List Byte) (w : World)
    (m : JSString) :
    (∀ (data c : JVal) (text : JSString) (k : Nat) (bytes : Nat → List Byte),
      w.json [] (captionCall buffer) = .ok data →
      variationCaption data = .ok c → toJSString c = .ok text →
      1 ≤ k → k ≤ 3 →
      (∀ i, i < k - 1 →
        w.binary
          (captionCall buffer :: (IndexJs.styles.take i).map (IndexJs.generationCall text))
          (IndexJs.generationCall text (IndexJs.styles.getD i [])) = .ok (bytes i)) →
      w.binary
        (captionCall buffer :: (IndexJs.styles.take (k - 1)).map (IndexJs.generationCall text))
        (IndexJs.generationCall text (IndexJs.styles.getD (k - 1) [])) = .error m →
      Handler.respond ⟨IndexJs.generateVariationsTry, IndexJs.generateVariationsCatch⟩
          ⟨body, some buffer⟩ w
        = (⟨500, .obj [(lit "error", .str (lit "variation_failed")), (lit "details", .str m)]⟩,
            captionCall buffer :: (IndexJs.styles.take k).map (IndexJs.generationCall text))) ∧
    (w.json [] (captionCall buffer) = .error m →
      Handler.respond ⟨IndexJs.generateVariationsTry, IndexJs.generateVariationsCatch⟩
          ⟨body, some buffer⟩ w
        = (⟨500, .obj [(lit "error", .str (lit "variation_failed")), (lit "details", .str m)]⟩,
            [captionCall buffer])) := by
  constructor
  · intro data c text k bytes hcap hc ht hk1 hk3 hok hfail
    unfold captionCall at hcap
    have hk : k = 1 ∨ k = 2 ∨ k = 3 := by omega
    rcases hk with rfl | rfl | rfl
    · simp only [Nat.reduceSub, IndexJs.styles, List.take, List.map, List.getD_cons_zero,
        IndexJs.generationCall, captionCall] at hfail
      simp [Handler.respond, runHandler, IndexJs.generateVariationsTry, axiosPost, liftThrows,
        IndexJs.styles, IndexJs.generateStyled, axiosPostBinary, hcap, hc, ht, hfail,
        IndexJs.generationCall, captionCall, IndexJs.generateVariationsCatch, errorDetails]
    · have h0 := hok 0 (by decide)
      simp only [Nat.reduceSub, IndexJs.styles, List.take, List.map, List.getD_cons_zero,
        List.getD_cons_succ, IndexJs.generationCall, captionCall] at hfail h0
      simp [Handler.respond, runHandler, IndexJs.generateVariationsTry, axiosPost, liftThrows,
        IndexJs.styles, IndexJs.generateStyled, axiosPostBinary, hcap, hc, ht, hfail, h0,
        IndexJs.generationCall, captionCall, IndexJs.generateVariationsCatch, errorDetails]
    · have h0 := hok 0 (by decide)
      have h1 := hok 1 (by decide)
      simp only [Nat.reduceSub, IndexJs.styles, List.take, List.map, List.getD_cons_zero,
        List.getD_cons_succ, IndexJs.generationCall, captionCall] at hfail h0 h1
      simp [Handler.respond, runHandler, IndexJs.generateVariationsTry, axiosPost, liftThrows,
        IndexJs.styles, IndexJs.generateStyled, axiosPostBinary, hcap, hc, ht, hfail, h0, h1,
        IndexJs.generationCall, captionCall, IndexJs.generateVariationsCatch, errorDetails]
  · intro hcap
    unfold captionCall at hcap
    simp [Handler.respond, runHandler, IndexJs.generateVariationsTry, axiosPost, hcap,
      captionCall, IndexJs.generateVariationsCatch, errorDetails]


/-- C8: in a run of generate-variations of `index.js`, for k = 1, 2, 3: if the captioning
call succeeded, the first `k - 1` generation calls of the run succeeded and the k-th
generation call of the run was rejected with message `m`, then the response is 500 with
exactly `error: "variation_failed"` and `details: m` (no caption, no variations) and the
run issued `k + 1` calls in all, the captioning call and the generation calls for the
first k styles, none after the rejected one; and if the captioning call is rejected with
message `m`, the response is the same envelope and the captioning call is the only call.
Entry 0 of the call log is the captioning call, entry i the i-th generation call; the
outcome of a call is what the providers answer to it after the calls logged before it. -/
theorem indexJs_variations_fail_fast (body : JVal) (buffer : List Byte) (w : World)
    (m : JSString) :
    (∀ k, 1 ≤ k → k ≤ 3 →
      (∃ data, w.json [] (captionCall buffer) = .ok data) →
      (∀ i, 1 ≤ i → i < k → ∃ call bytes,
        (Handler.respond ⟨IndexJs.generateVariationsTry, IndexJs.generateVariationsCatch⟩
          ⟨body, some buffer⟩ w).2[i]? = some call ∧
        w.binary
          ((Handler.respond ⟨IndexJs.generateVariationsTry, IndexJs.generateVariationsCatch⟩
            ⟨body, some buffer⟩ w).2.take i) call = .ok bytes) →
      (∃ call,
        (Handler.respond ⟨IndexJs.generateVariationsTry, IndexJs.generateVariationsCatch⟩
          ⟨body, some buffer⟩ w).2[k]? = some call ∧
        w.binary
          ((Handler.respond ⟨IndexJs.generateVariationsTry, IndexJs.generateVariationsCatch⟩
            ⟨body, some buffer⟩ w).2.take k) call = .error m) →
      (Handler.respond ⟨IndexJs.generateVariationsTry, IndexJs.generateVariationsCatch⟩
          ⟨body, some buffer⟩ w).1
        = ⟨500, .obj [(lit "error", .str (lit "variation_failed")), (lit "details", .str m)]⟩ ∧
      (Handler.respond ⟨IndexJs.generateVariationsTry, IndexJs.generateVariationsCatch⟩
          ⟨body, some buffer⟩ w).2.length = k + 1 ∧
      ∃ text,
        (Handler.respond ⟨IndexJs.generateVariationsTry, IndexJs.generateVariationsCatch⟩
          ⟨body, some buffer⟩ w).2
          = captionCall buffer :: (IndexJs.styles.take k).map (IndexJs.generationCall text)) ∧
    (w.json [] (captionCall buffer) = .error m →
      Handler.respond ⟨IndexJs.generateVariationsTry, IndexJs.generateVariationsCatch⟩
          ⟨body, some buffer⟩ w
        = (⟨500, .obj [(lit "error", .str (lit "variation_failed")), (lit "details", .str m)]⟩,
            [captionCall buffer])) := by
  refine ⟨?_, (indexJs_generateVariations_failure body buffer w m).2⟩
  intro k hk1 hk3 hcap _ hfail
  obtain ⟨data, hcap⟩ := hcap
  obtain ⟨call, hget, hfail⟩ := hfail
  have hk : k = 1 ∨ k = 2 ∨ k = 3 := by omega
  have hcap2 := hcap
  unfold captionCall at hcap2
  cases hc : variationCaption data with
  | error e =>
    have hr : Handler.respond ⟨IndexJs.generateVariationsTry, IndexJs.generateVariationsCatch⟩
        ⟨body, some buffer⟩ w = (IndexJs.generateVariationsCatch e, [captionCall buffer]) := by
      simp [Handler.respond, runHandler, IndexJs.generateVariationsTry, axiosPost, liftThrows,
        hcap2, hc, captionCall]
    rw [hr] at hget
    rcases hk with rfl | rfl | rfl <;> simp at hget
  | ok c =>
    cases ht : toJSString c with
    | error e =>
      have hr : Handler.respond ⟨IndexJs.generateVariationsTry, IndexJs.generateVariationsCatch⟩
          ⟨body, some buffer⟩ w = (IndexJs.generateVariationsCatch e, [captionCall buffer]) := by
        simp [Handler.respond, runHandler, IndexJs.generateVariationsTry, axiosPost, liftThrows,
          IndexJs.styles, IndexJs.generateStyled, hcap2, hc, ht, captionCall]
      rw [hr] at hget
      rcases hk with rfl | rfl | rfl <;> simp at hget
    | ok text =>
      cases h1 : w.binary [captionCall buffer]
          (IndexJs.generationCall text (lit "photorealistic style")) with
      | error e1 =>
        have hr := (indexJs_generateVariations_failure body buffer w e1).1 data c text 1
          (fun _ => []) hcap hc ht (by decide) (by decide) (fun i hi => by omega) h1
        rw [hr] at hget hfail ⊢
        rcases hk with rfl | rfl | rfl <;>
          simp [IndexJs.styles] at hget hfail ⊢
        subst hget
        rw [h1] at hfail
        exact ⟨by simpa using hfail, text, rfl⟩
      | ok b1 =>
        cases h2 : w.binary [captionCall buffer,
            IndexJs.generationCall text (lit "photorealistic style")]
            (IndexJs.generationCall text (lit "digital art style")) with
        | error e2 =>
          have hr := (indexJs_generateVariations_failure body buffer w e2).1 data c text 2
            (fun _ => b1) hcap hc ht (by decide) (by decide)
            (fun i hi => by
              have hi0 : i = 0 := by omega
              subst hi0
              exact h1) h2
          rw [hr] at hget hfail ⊢
          rcases hk with rfl | rfl | rfl <;>
            simp [IndexJs.styles] at hget hfail ⊢
          · subst hget
            rw [h1] at hfail
            cases hfail
          · subst hget
            rw [h2] at hfail
            exact ⟨by simpa using hfail, text, rfl, rfl⟩
        | ok b2 =>
          cases h3 : w.binary [captionCall buffer,
              IndexJs.generationCall text (lit "photorealistic style"),
              IndexJs.generationCall text (lit "digital art style")]
              (IndexJs.generationCall text (lit "cinematic dramatic lighting style")) with
          | error e3 =>
            have hr := (indexJs_generateVariations_failure body buffer w e3).1 data c text 3
              (fun i => if i = 0 then b1 else b2) hcap hc ht (by decide) (by decide)
              (fun i hi => by
                have hi0 : i = 0 ∨ i = 1 := by omega
                rcases hi0 with rfl | rfl
                · exact h1
                · exact h2) h3
            rw [hr] at hget hfail ⊢
            rcases hk with rfl | rfl | rfl <;>
              simp [IndexJs.styles] at hget hfail ⊢
            · subst hget
              rw [h1] at hfail
              cases hfail
            · subst hget
              rw [h2] at hfail
              cases hfail
            · subst hget
              rw [h3] at hfail
              exact ⟨by simpa using hfail, text, rfl, rfl, rfl⟩
          | ok b3 =>
            have hr := indexJs_generateVariations_success body buffer w data c text
              (fun i => if i = 0 then b1 else if i = 1 then b2 else b3) hcap hc ht
              (fun i hi => by
                have hi0 : i = 0 ∨ i = 1 ∨ i = 2 := by omega
                rcases hi0 with rfl | rfl | rfl
                · exact h1
                · exact h2
                · exact h3)
            rw [hr] at hget hfail
            rcases hk with rfl | rfl | rfl <;>
              simp [IndexJs.styles] at hget hfail
            · subst hget
              rw [h1] at hfail
              cases hfail
            · subst hget
              rw [h2] at hfail
              cases hfail
            · subst hget
              rw [h3] at hfail
              cases hfail

/-- Witness of C8: the second generation call is rejected with `timeout`; and the
captioning call is rejected with `timeout`. -/
theorem indexJs_variations_fail_fast_witness :
    ((∃ data, IndexJs.secondCallRejected.json [] (captionCall [1, 2, 3]) = .ok data) ∧
      (∃ call,
        (Handler.respond ⟨IndexJs.generateVariationsTry, IndexJs.generateVariationsCatch⟩
          ⟨.obj [], some [1, 2, 3]⟩ IndexJs.secondCallRejected).2[2]? = some call ∧
        IndexJs.secondCallRejected.binary
          ((Handler.respond ⟨IndexJs.generateVariationsTry, IndexJs.generateVariationsCatch⟩
            ⟨.obj [], some [1, 2, 3]⟩ IndexJs.secondCallRejected).2.take 2) call
          = .error (lit "timeout")) ∧
      (Handler.respond ⟨IndexJs.generateVariationsTry, IndexJs.generateVariationsCatch⟩
          ⟨.obj [], some [1, 2, 3]⟩ IndexJs.secondCallRejected).1
        = ⟨500, .obj [(lit "error", .str (lit "variation_failed")),
            (lit "details", .str (lit "timeout"))]⟩ ∧
      (Handler.respond ⟨IndexJs.generateVariationsTry, IndexJs.generateVariationsCatch⟩
          ⟨.obj [], some [1, 2, 3]⟩ IndexJs.secondCallRejected).2.length = 2 + 1 ∧
      ∃ text,
        (Handler.respond ⟨IndexJs.generateVariationsTry, IndexJs.generateVariationsCatch⟩
          ⟨.obj [], some [1, 2, 3]⟩ IndexJs.secondCallRejected).2
          = captionCall [1, 2, 3]
            :: (IndexJs.styles.take 2).map (IndexJs.generationCall text)) ∧
    Handler.respond ⟨IndexJs.generateVariationsTry, IndexJs.generateVariationsCatch⟩
        ⟨.obj [], some [1, 2, 3]⟩ ⟨fun _ _ => .error (lit "timeout"), fun _ _ => .ok []⟩
      = (⟨500, .obj [(lit "error", .str (lit "variation_failed")),
            (lit "details", .str (lit "timeout"))]⟩,
          [captionCall [1, 2, 3]]) :=
  ⟨⟨⟨_, rfl⟩, ⟨_, rfl, rfl⟩,
    (indexJs_variations_fail_fast (.obj []) [1, 2, 3] IndexJs.secondCallRejected
      (lit "timeout")).1 2 (by decide) (by decide) ⟨_, rfl⟩
      (fun i h1 h2 => by
        have hi : i = 1 := by omega
        subst hi
        exact ⟨_, _, rfl, rfl⟩)
      ⟨_, rfl, rfl⟩⟩,
    (indexJs_variations_fail_fast (.obj []) [1, 2, 3]
      ⟨fun _ _ => .error (lit "timeout"), fun _ _ => .ok []⟩ (lit "timeout")).2 rfl⟩

/-! ## C9: the caption of generate-variations -/

/-- When `styles.map` yields `urls`, generate-variations of `index.mjs` answers 200 with
the caption and `urls`, after the captioning call alone. -/
theorem indexMjs_generateVariations_of_urls (body : JVal) (buffer : List Byte) (w : World)
    (data c : JVal) (urls : List JVal)
    (hcap : w.json [] (captionCall buffer) = .ok data)
    (hc : variationCaption data = .ok c)
    (hm : IndexMjs.styles.mapM (IndexMjs.variationUrl c) = .ok urls) :
    Handler.respond ⟨IndexMjs.generateVariationsTry, IndexMjs.generateVariationsCatch⟩
        ⟨body, some buffer⟩ w
      = (⟨200, .obj [(lit "caption", c), (lit "variations", .arr urls)]⟩,
          [captionCall buffer]) := by
  unfold captionCall at hcap
  simp only [Handler.respond, runHandler, IndexMjs.generateVariationsTry, Eff.bind_run,
    Eff.pure_run, axiosPost, liftThrows, hcap, hc, hm, captionCall, List.nil_append]

/-- C9 (amended): generate-variations of both files applies rule 1 only.  The caption is
`T` when the captioning response is a sequence whose first element has a non-empty
`generated_text` `T`; it is the literal `an image` when the response is not a sequence
(a mapping with `generated_text` included) and when it is a sequence whose first element
is neither `null` nor `undefined` and lacks the field; it is never the serialised
response.  Whenever the handler succeeds, the caption resolved is the `caption` of the
response and the text interpolated into the three style prompts. -/
theorem variationCaption_rule_one :
    (∀ (T : JSString) (fields : List (JSString × JVal)) (rest : List JVal), T ≠ [] →
      lookupField generatedText fields = some (.str T) →
      variationCaption (.arr (.obj fields :: rest)) = .ok (.str T)) ∧
    (∀ data : JVal, isArray data = false →
      variationCaption data = .ok (.str (lit "an image"))) ∧
    (∀ (first : JVal) (rest : List JVal), isNullish first = false →
      hasGeneratedText first = false →
      variationCaption (.arr (first :: rest)) = .ok (.str (lit "an image"))) ∧
    (∀ (body : JVal) (buffer : List Byte) (w : World) (data c : JVal) (text : JSString),
      w.json [] (captionCall buffer) = .ok data →
      variationCaption data = .ok c → toJSString c = .ok text →
      (∀ bytes : Nat → List Byte,
        (∀ i, i < 3 →
          w.binary
            (captionCall buffer :: (IndexJs.styles.take i).map (IndexJs.generationCall text))
            (IndexJs.generationCall text (IndexJs.styles.getD i [])) = .ok (bytes i)) →
        Handler.respond ⟨IndexJs.generateVariationsTry, IndexJs.generateVariationsCatch⟩
            ⟨body, some buffer⟩ w
          = (⟨200, .obj [(lit "caption", c), (lit "variations",
                .arr [IndexJs.dataUri (bytes 0), IndexJs.dataUri (bytes 1),
                  IndexJs.dataUri (bytes 2)])]⟩,
              [captionCall buffer,
                .axiosPost IndexJs.stableDiffusionUrl
                  (.obj [(lit "inputs",
                    .str (lit "A photorealistic style version of " ++ text))]) true 300000,
                .axiosPost IndexJs.stableDiffusionUrl
                  (.obj [(lit "inputs",
                    .str (lit "A digital art style version of " ++ text))]) true 300000,
                .axiosPost IndexJs.stableDiffusionUrl
                  (.obj [(lit "inputs",
                    .str (lit "A cinematic dramatic lighting style version of " ++ text))])
                  true 300000])) ∧
      (∀ u1 u2 u3 : JSString,
        encodeURIComponent (.str (text ++ lit " in realistic photo style")) = .ok u1 →
        encodeURIComponent (.str (text ++ lit " in digital art style")) = .ok u2 →
        encodeURIComponent (.str (text ++ lit " in cinematic lighting style")) = .ok u3 →
        Handler.respond ⟨IndexMjs.generateVariationsTry, IndexMjs.generateVariationsCatch⟩
            ⟨body, some buffer⟩ w
          = (⟨200, .obj [(lit "caption", c), (lit "variations",
                .arr [.str (lit "https://image.pollinations.ai/prompt/" ++ u1),
                  .str (lit "https://image.pollinations.ai/prompt/" ++ u2),
                  .str (lit "https://image.pollinations.ai/prompt/" ++ u3)])]⟩,
              [captionCall buffer]))) := by
  refine ⟨?_, ?_, ?_, ?_⟩
  · intro T fields rest hT hl
    simp [variationCaption, firstGeneratedText, isArray, getIndex, getField, hl, truthy, hT]
  · intro data hd
    simp [variationCaption, firstGeneratedText, hd, truthy]
  · intro first rest hn hg
    cases first with
    | undefined => simp [isNullish] at hn
    | null => simp [isNullish] at hn
    | bool b => simp [variationCaption, firstGeneratedText, isArray, getIndex, getField, truthy]
    | num n => simp [variationCaption, firstGeneratedText, isArray, getIndex, getField, truthy]
    | str s => simp [variationCaption, firstGeneratedText, isArray, getIndex, getField, truthy]
    | arr ys => simp [variationCaption, firstGeneratedText, isArray, getIndex, getField, truthy]
    | obj fields =>
      have h4 : lookupField generatedText fields = none := by
        cases hl : lookupField generatedText fields <;> simp [hasGeneratedText, hl] at hg ⊢
      simp [variationCaption, firstGeneratedText, isArray, getIndex, getField, truthy, h4]
  · intro body buffer w data c text hcap hc ht
    constructor
    · intro bytes hgen
      rw [indexJs_generateVariations_success body buffer w data c text bytes hcap hc ht hgen]
      simp only [IndexJs.styles, List.map, IndexJs.generationCall, IndexJs.stylePrompt,
        List.append_assoc]
      rfl
    · intro u1 u2 u3 e1 e2 e3
      apply indexMjs_generateVariations_of_urls body buffer w data c _ hcap hc
      have p1 : IndexMjs.stylePrompt text (lit "realistic photo")
          = text ++ lit " in realistic photo style" := by
        simp only [IndexMjs.stylePrompt, List.append_assoc]; rfl
      have p2 : IndexMjs.stylePrompt text (lit "digital art")
          = text ++ lit " in digital art style" := by
        simp only [IndexMjs.stylePrompt, List.append_assoc]; rfl
      have p3 : IndexMjs.stylePrompt text (lit "cinematic lighting")
          = text ++ lit " in cinematic lighting style" := by
        simp only [IndexMjs.stylePrompt, List.append_assoc]; rfl
      simp [IndexMjs.styles, List.mapM, List.mapM.loop, IndexMjs.variationUrl, ht,
        IndexMjs.pollinationsUrl, p1, p2, p3, e1, e2, e3, bind, Except.bind, pure, Except.pure]

/-- Witness of C9: the caption `a cat` from a sequence, the fallback for a mapping and
for the sequence holding one empty mapping, and the response of `index.mjs` for a mapping,
whose three prompts interpolate `an image`. -/
theorem variationCaption_rule_one_witness :
    (lit "a cat" ≠ [] ∧
      lookupField generatedText [(generatedText, .str (lit "a cat"))]
        = some (.str (lit "a cat")) ∧
      variationCaption (.arr [.obj [(generatedText, .str (lit "a cat"))]])
        = .ok (.str (lit "a cat"))) ∧
    (isArray (.obj [(generatedText, .str (lit "a dog"))]) = false ∧
      variationCaption (.obj [(generatedText, .str (lit "a dog"))])
        = .ok (.str (lit "an image"))) ∧
    (isNullish (.obj []) = false ∧ hasGeneratedText (.obj []) = false ∧
      variationCaption (.arr [.obj []]) = .ok (.str (lit "an image"))) ∧
    (encodeURIComponent (.str (lit "an image" ++ lit " in realistic photo style"))
        = .ok (lit "an%20image%20in%20realistic%20photo%20style") ∧
      Handler.respond ⟨IndexMjs.generateVariationsTry, IndexMjs.generateVariationsCatch⟩
          ⟨.obj [], some [1, 2, 3]⟩
          (constWorld (.obj [(generatedText, .str (lit "a dog"))]) [])
        = (⟨200, .obj [(lit "caption", .str (lit "an image")), (lit "variations",
              .arr [.str (lit "https://image.pollinations.ai/prompt/" ++
                  lit "an%20image%20in%20realistic%20photo%20style"),
                .str (lit "https://image.pollinations.ai/prompt/" ++
                  lit "an%20image%20in%20digital%20art%20style"),
                .str (lit "https://image.pollinations.ai/prompt/" ++
                  lit "an%20image%20in%20cinematic%20lighting%20style")])]⟩,
            [captionCall [1, 2, 3]])) :=
  ⟨⟨by decide, rfl,
      variationCaption_rule_one.1 (lit "a cat") [(generatedText, .str (lit "a cat"))] []
        (by decide) rfl⟩,
    ⟨rfl, variationCaption_rule_one.2.1 (.obj [(generatedText, .str (lit "a dog"))]) rfl⟩,
    ⟨rfl, rfl, variationCaption_rule_one.2.2.1 (.obj []) [] rfl rfl⟩,
    ⟨by rfl,
      (variationCaption_rule_one.2.2.2 (.obj []) [1, 2, 3]
        (constWorld (.obj [(generatedText, .str (lit "a dog"))]) [])
        (.obj [(generatedText, .str (lit "a dog"))]) (.str (lit "an image")) (lit "an image")
        rfl rfl rfl).2
        (lit "an%20image%20in%20realistic%20photo%20style")
        (lit "an%20image%20in%20digital%20art%20style")
        (lit "an%20image%20in%20cinematic%20lighting%20style")
        (by rfl) (by rfl) (by rfl)⟩⟩

/-- Counterexample to C9 as stated: for a sequence whose first element has the empty
`generated_text`, the caption is `an image`, not the empty text. -/
theorem variationCaption_empty_text :
    variationCaption (.arr [.obj [(generatedText, .str [])]]) = .ok (.str (lit "an image")) ∧
      variationCaption (.arr [.obj [(generatedText, .str [])]]) ≠ .ok (.str []) :=
  ⟨rfl, fun h => by
    rw [show variationCaption (.arr [.obj [(generatedText, .str [])]])
      = .ok (.str (lit "an image")) from rfl] at h
    cases h⟩

/-! ## C10: the addresses of `index.mjs` -/

/-- The only upstream call of generate-variations of `index.mjs` is the captioning
call. -/
theorem indexMjs_generateVariations_calls (body : JVal) (buffer : List Byte) (w : World) :
    (Handler.respond ⟨IndexMjs.generateVariationsTry, IndexMjs.generateVariationsCatch⟩
        ⟨body, some buffer⟩ w).2 = [captionCall buffer] := by
  simp only [Handler.respond, runHandler, IndexMjs.generateVariationsTry, Eff.bind_run,
    Eff.pure_run, axiosPost, liftThrows, captionCall, List.nil_append]
  cases w.json [] (Call.axiosPost blipUrl (captionPayload buffer) false 180000) with
  | error e => rfl
  | ok data =>
    simp only
    cases variationCaption data with
    | error e => rfl
    | ok c =>
      simp only
      cases List.mapM (IndexMjs.variationUrl c) IndexMjs.styles with
      | error e => rfl
      | ok urls => rfl

/-- C10 (amended): in `index.mjs`, for every caption resolved in step 1 whose text has
no unpaired surrogate, `variations` is exactly the list of the three Pollinations
addresses of the text followed by ` in realistic photo style`, ` in digital art style`
and ` in cinematic lighting style`, each address being the fixed prefix followed by
`encodeURIComponent` of the prompt; and, whatever the caption, the only upstream call of
the handler is the captioning call (no image-generation call). -/
theorem indexMjs_variations_addresses (body : JVal) (buffer : List Byte) (w : World) :
    (∀ (data c : JVal) (text : JSString),
      w.json [] (captionCall buffer) = .ok data →
      variationCaption data = .ok c → toJSString c = .ok text →
      isWellFormed text = true →
      ∃ u1 u2 u3,
        encodeURIComponent (.str (text ++ lit " in realistic photo style")) = .ok u1 ∧
        encodeURIComponent (.str (text ++ lit " in digital art style")) = .ok u2 ∧
        encodeURIComponent (.str (text ++ lit " in cinematic lighting style")) = .ok u3 ∧
        Handler.respond ⟨IndexMjs.generateVariationsTry, IndexMjs.generateVariationsCatch⟩
            ⟨body, some buffer⟩ w
          = (⟨200, .obj [(lit "caption", c), (lit "variations",
                .arr [.str (lit "https://image.pollinations.ai/prompt/" ++ u1),
                  .str (lit "https://image.pollinations.ai/prompt/" ++ u2),
                  .str (lit "https://image.pollinations.ai/prompt/" ++ u3)])]⟩,
              [captionCall buffer])) ∧
    (Handler.respond ⟨IndexMjs.generateVariationsTry, IndexMjs.generateVariationsCatch⟩
        ⟨body, some buffer⟩ w).2 = [captionCall buffer] :=
  ⟨fun data c text hcap hc ht hwf =>
      indexMjs_generateVariations_success body buffer w data c text hcap hc ht hwf,
    indexMjs_generateVariations_calls body buffer w⟩

/-- Witness of C10: the caption `a red bicycle` of the specification example, with the
three addresses written out. -/
theorem indexMjs_variations_addresses_witness :
    (constWorld (.arr [.obj [(generatedText, .str (lit "a red bicycle"))]]) []).json []
        (captionCall [1, 2, 3])
      = .ok (.arr [.obj [(generatedText, .str (lit "a red bicycle"))]]) ∧
    variationCaption (.arr [.obj [(generatedText, .str (lit "a red bicycle"))]])
      = .ok (.str (lit "a red bicycle")) ∧
    toJSString (.str (lit "a red bicycle")) = .ok (lit "a red bicycle") ∧
    isWellFormed (lit "a red bicycle") = true ∧
    (∃ u1 u2 u3,
      encodeURIComponent (.str (lit "a red bicycle" ++ lit " in realistic photo style"))
        = .ok u1 ∧
      encodeURIComponent (.str (lit "a red bicycle" ++ lit " in digital art style"))
        = .ok u2 ∧
      encodeURIComponent (.str (lit "a red bicycle" ++ lit " in cinematic lighting style"))
        = .ok u3 ∧
      Handler.respond ⟨IndexMjs.generateVariationsTry, IndexMjs.generateVariationsCatch⟩
          ⟨.obj [], some [1, 2, 3]⟩
          (constWorld (.arr [.obj [(generatedText, .str (lit "a red bicycle"))]]) [])
        = (⟨200, .obj [(lit "caption", .str (lit "a red bicycle")), (lit "variations",
              .arr [.str (lit "https://image.pollinations.ai/prompt/" ++ u1),
                .str (lit "https://image.pollinations.ai/prompt/" ++ u2),
                .str (lit "https://image.pollinations.ai/prompt/" ++ u3)])]⟩,
            [captionCall [1, 2, 3]])) ∧
    Handler.respond ⟨IndexMjs.generateVariationsTry, IndexMjs.generateVariationsCatch⟩
        ⟨.obj [], some [1, 2, 3]⟩
        (constWorld (.arr [.obj [(generatedText, .str (lit "a red bicycle"))]]) [])
      = (⟨200, .obj [(lit "caption", .str (lit "a red bicycle")), (lit "variations",
            .arr [.str (lit ("https://image.pollinations.ai/prompt/" ++
                "a%20red%20bicycle%20in%20realistic%20photo%20style")),
              .str (lit ("https://image.pollinations.ai/prompt/" ++
                "a%20red%20bicycle%20in%20digital%20art%20style")),
              .str (lit ("https://image.pollinations.ai/prompt/" ++
                "a%20red%20bicycle%20in%20cinematic%20lighting%20style"))])]⟩,
          [captionCall [1, 2, 3]]) :=
  ⟨rfl, rfl, rfl, rfl,
    (indexMjs_variations_addresses (.obj []) [1, 2, 3]
      (constWorld (.arr [.obj [(generatedText, .str (lit "a red bicycle"))]]) [])).1
      (.arr [.obj [(generatedText, .str (lit "a red bicycle"))]]) (.str (lit "a red bicycle"))
      (lit "a red bicycle") rfl rfl rfl rfl,
    by rfl⟩

/-- Counterexample to C10 as stated: the caption `a` followed by the unpaired surrogate
`\udc00` is resolved in step 1, `encodeURIComponent` raises on the first prompt, and the
response is 500 without `variations`. -/
theorem indexMjs_variations_unpaired_surrogate :
    variationCaption (.arr [.obj [(generatedText, .str [0x61, 0xDC00])]])
      = .ok (.str [0x61, 0xDC00]) ∧
    encodeURIComponent (.str ([0x61, 0xDC00] ++ lit " in realistic photo style"))
      = .error (lit "URI malformed") ∧
    Handler.respond ⟨IndexMjs.generateVariationsTry, IndexMjs.generateVariationsCatch⟩
        ⟨.obj [], some [1, 2, 3]⟩
        (constWorld (.arr [.obj [(generatedText, .str [0x61, 0xDC00])]]) [])
      = (⟨500, errorDetails "variation_failed" (lit "URI malformed")⟩,
          [captionCall [1, 2, 3]]) :=
  ⟨rfl, rfl, rfl⟩

end Backend
